import Mathlib

/-! PythonVersionManager: the Windows install pipeline.

A shallow embedding of `src/WindowsClient/installPackage.go` and
`src/WindowsClient/windowsClient.go`.

The Go code is sequential and talks to the outside world (file system, network,
child processes, standard output) through library calls.  A run is modelled as a
function from the history of the calls issued so far to an outcome and the calls
the run itself issues; what the outside world answers to a call is read from an
environment `Env` whose answers may depend on the whole history.  `log.Fatal*`
and run-time panics end a run and are kept apart in `Outcome`.
-/

set_option maxRecDepth 8000
set_option maxHeartbeats 4000000

namespace windowsClient

/-! ## Values -/

/-- Go `error` value: the text `Error()` returns, and what `os.IsNotExist` says of it. -/
structure Error where
  msg : String
  notExist : Bool
deriving DecidableEq, Repr

/-- The part of `os.FileInfo` the code reads. -/
structure FileInfo where
  IsDir : Bool
deriving DecidableEq, Repr

/-- Modelled from the spec: the `pipBootstrap` sub-descriptor (`filename`, `downloadUrl`);
its Go declaration lives in package `PythonVersion`, outside the sources at hand.
The field names are the ones `python3Install` reads. -/
structure PipVersion where
  Filename : String
  DownloadUrl : String
deriving DecidableEq, Repr

/-- Modelled from the spec: `majorVersion`/`minorVersion` of a descriptor; the Go type
behind `version.VersionInfo` is declared outside the sources at hand.  `Major()` and
`Minor()` are taken to be non-negative integers. -/
structure VersionInfo where
  Major : Nat
  Minor : Nat
deriving DecidableEq, Repr

/-- Modelled from the spec: the VersionDescriptor (`versionNumber`, `downloadUrl`,
`installerFilename`, `pipBootstrap`, major/minor); the Go struct
`pythonVersion.PythonVersion` is declared outside the sources at hand.  The field names
are the ones `InstallNewVersion` reads. -/
structure PythonVersion where
  VersionNumber : String
  DownloadUrl : String
  InstallerFilename : String
  VersionInfo : VersionInfo
  PipVersion : PipVersion
deriving DecidableEq, Repr

/-- The zero value of `PythonVersion`, what `var version pythonVersion.PythonVersion` holds. -/
def PythonVersion.zero : PythonVersion :=
  ⟨"", "", "", ⟨0, 0⟩, ⟨"", ""⟩⟩

/-- `SymlinkDest` of windowsClient.go. -/
def SymlinkDest : String := "%localappdata%\\Python"

/-- `PythonRootContainer` of windowsClient.go. -/
def PythonRootContainer : String := ".\\Python"

/-- `PythonVersions` of windowsClient.go.  `Classes` is the Go map
`map[string]*PythonVersion` seen through indexing: `Classes k` is the pointer
`Classes[k]`, `none` being the nil pointer (key absent, or nil stored). -/
structure PythonVersions where
  All : List String
  Stable : List String
  Unstable : List String
  Classes : String → Option PythonVersion
  CreationDate : Int

/-- `Client` of windowsClient.go (the `HttpClient` field, which the install pipeline
never reads, is left out). -/
structure Client where
  AppRoot : String
  Arch : String
  PythonVersions : PythonVersions
  CachedDataExists : Bool
  ExpiryDate : Int

/-! ## Calls to the outside world -/

/-- One call issued to the outside world, with its arguments. -/
inductive Call where
  | fetchAllAvailableVersions
  | Stat (name : String)
  | RemoveAll (path : String)
  | Remove (name : String)
  | Rename (oldpath newpath : String)
  | ReadDir (name : String)
  | Create (name : String)
  | WriteString (file : String) (s : String)
  | Close (file : String)
  | DownloadFile (url dest : String)
  | UnzipFile (src dest : String)
  | ZipDirWithExclusions (dir out : String) (excluded : List String)
  | RunCmd (command : String)
  | Print (s : String)
  | PrintErr (s : String)
deriving DecidableEq, Repr

/-- The calls issued so far, oldest first. -/
abbrev Trace := List Call

/-- How a run ends. -/
inductive Outcome (α : Type) where
  | ok (a : α)
  | fatal (msg : String)
  | panic (msg : String)
deriving DecidableEq, Repr

/-- The outside world and the library functions that are not modelled in full.
`ToLower` is `strings.ToLower`, whose case mapping covers all of Unicode; `pathJoin`,
`filepathJoin` and `filepathAbs` are `path.Join`, `filepath.Join` and `filepath.Abs`,
whose value depends on the platform and the working directory.
Every answer of the outside world may depend on the history of calls issued before it.
`fetchAllAvailableVersions`, `DownloadFile`, `UnzipFile`, `ZipDirWithExclusions`,
`RunCmd` and `CmdColors` belong to this repository but are declared outside the
sources at hand; they are parameters here.  `UnzipFile` and `ZipDirWithExclusions`
answer with an error value as the spec's `extract(..) -> error` and
`compressDirectory(..) -> error` do. -/
structure Env where
  ToLower : String → String
  pathJoin : List String → String
  filepathJoin : List String → String
  filepathAbs : String → String
  CmdColors : String → String
  fetchAllAvailableVersions : Trace → Client → Client
  Stat : Trace → String → Option FileInfo × Option Error
  RemoveAll : Trace → String → Option Error
  Remove : Trace → String → Option Error
  Rename : Trace → String → String → Option Error
  ReadDir : Trace → String → List String × Option Error
  Create : Trace → String → Option Error
  WriteString : Trace → String → String → Option Error
  DownloadFile : Trace → String → String → Option Error
  UnzipFile : Trace → String → String → Option Error
  ZipDirWithExclusions : Trace → String → String → List String → Option Error
  RunCmd : Trace → String → String × Option Error

/-! ## Runs -/

/-- A run: given the history, an outcome and the calls the run issues (oldest first). -/
def Go (α : Type) : Type := Trace → Outcome α × Trace

/-- Return a value without issuing a call. -/
def Go.pure {α : Type} (a : α) : Go α := fun _ => (Outcome.ok a, [])

/-- Sequencing: the second run sees the history extended by the calls of the first;
a fatal exit or a panic of the first ends the whole run. -/
def Go.bind {α β : Type} (m : Go α) (f : α → Go β) : Go β := fun h =>
  match m h with
  | (Outcome.ok a, c) => ((f a (h ++ c)).1, c ++ (f a (h ++ c)).2)
  | (Outcome.fatal msg, c) => (Outcome.fatal msg, c)
  | (Outcome.panic msg, c) => (Outcome.panic msg, c)

instance : Monad Go where
  pure := Go.pure
  bind := Go.bind

/-- Issue one call and read the answer off the history. -/
def Go.call {α : Type} (c : Call) (answer : Trace → α) : Go α :=
  fun h => (Outcome.ok (answer h), [c])

/-- End the run as `log.Fatal`, `log.Fatalf` and `log.Fatalln` do: the message is
logged and the process exits. -/
def Go.fatal {α : Type} (msg : String) : Go α := fun _ => (Outcome.fatal msg, [])

/-- End the run by a panic. -/
def Go.panic {α : Type} (msg : String) : Go α := fun _ => (Outcome.panic msg, [])

/-- A computation without calls that may itself end fatally or panic. -/
def Go.lift {α : Type} (o : Outcome α) : Go α := fun _ => (o, [])

/-- Text of the run-time panic on dereferencing a nil pointer. -/
def nilDereference : String :=
  "runtime error: invalid memory address or nil pointer dereference"

/-- Text of the run-time panic on indexing an empty slice at 0. -/
def indexOutOfRange : String :=
  "runtime error: index out of range [0] with length 0"

/-! ## Library functions modelled directly -/

/-- Whether `sub` is at the start of `l`. -/
def startsWith : List Char → List Char → Bool
  | _, [] => true
  | [], _ :: _ => false
  | a :: l, b :: sub => a == b && startsWith l sub

/-- Whether `sub` occurs in `l` as a contiguous block. -/
def containsChars : List Char → List Char → Bool
  | [], sub => startsWith [] sub
  | a :: l, sub => startsWith (a :: l) sub || containsChars l sub

/-- `strings.Contains`. -/
def Contains (s substr : String) : Bool := containsChars s.data substr.data

/-! ## Version resolution (installPackage.go, lines 18-38) -/

/-- The loop of lines 28-33: every identifier of `All` equal to the token as typed
sets `found` and loads `*Classes[inputVersion]`. -/
def resolveLoop (Classes : String → Option PythonVersion) (v inputVersion : String) :
    List String → Bool × PythonVersion → Outcome (Bool × PythonVersion)
  | [], acc => Outcome.ok acc
  | pv :: rest, acc =>
    if pv = v then
      match Classes inputVersion with
      | none => Outcome.panic nilDereference
      | some d => resolveLoop Classes v inputVersion rest (true, d)
    else resolveLoop Classes v inputVersion rest acc

/-- Lines 18-38 of `InstallNewVersion`: the descriptor the token resolves to. -/
def resolveVersion (E : Env) (pvs : PythonVersions) (v : String) : Outcome PythonVersion :=
  let inputVersion := E.ToLower v
  if inputVersion = "latest" then
    match pvs.Stable with
    | [] => Outcome.panic indexOutOfRange
    | latest :: _ =>
      match pvs.Classes latest with
      | none => Outcome.panic nilDereference
      | some d => Outcome.ok d
  else
    match resolveLoop pvs.Classes v inputVersion pvs.All (false, PythonVersion.zero) with
    | Outcome.ok (found, version) =>
      if !found then
        Outcome.fatal ("\"" ++ v ++ "\" is not a valid python version.")
      else Outcome.ok version
    | Outcome.fatal msg => Outcome.fatal msg
    | Outcome.panic msg => Outcome.panic msg

/-- `os.IsNotExist`. -/
def IsNotExist : Option Error → Bool
  | none => false
  | some e => e.notExist

/-! ## The calls, as runs -/

/-- `os.Stat`. -/
def osStat (E : Env) (name : String) : Go (Option FileInfo × Option Error) :=
  Go.call (Call.Stat name) (fun h => E.Stat h name)

/-- `os.RemoveAll`. -/
def osRemoveAll (E : Env) (path : String) : Go (Option Error) :=
  Go.call (Call.RemoveAll path) (fun h => E.RemoveAll h path)

/-- `os.Remove`. -/
def osRemove (E : Env) (name : String) : Go (Option Error) :=
  Go.call (Call.Remove name) (fun h => E.Remove h name)

/-- `os.Rename`. -/
def osRename (E : Env) (oldpath newpath : String) : Go (Option Error) :=
  Go.call (Call.Rename oldpath newpath) (fun h => E.Rename h oldpath newpath)

/-- `os.ReadDir`, the entries by name. -/
def osReadDir (E : Env) (name : String) : Go (List String × Option Error) :=
  Go.call (Call.ReadDir name) (fun h => E.ReadDir h name)

/-- `os.Create`; the file is known by its path. -/
def osCreate (E : Env) (name : String) : Go (Option Error) :=
  Go.call (Call.Create name) (fun h => E.Create h name)

/-- `(*os.File).WriteString`. -/
def WriteString (E : Env) (file s : String) : Go (Option Error) :=
  Go.call (Call.WriteString file s) (fun h => E.WriteString h file s)

/-- `(*os.File).Close`. -/
def Close (file : String) : Go Unit :=
  Go.call (Call.Close file) (fun _ => ())

/-- `utils.DownloadFile`. -/
def DownloadFile (E : Env) (url dest : String) : Go (Option Error) :=
  Go.call (Call.DownloadFile url dest) (fun h => E.DownloadFile h url dest)

/-- `utils.UnzipFile`. -/
def UnzipFile (E : Env) (src dest : String) : Go (Option Error) :=
  Go.call (Call.UnzipFile src dest) (fun h => E.UnzipFile h src dest)

/-- `utils.ZipDirWithExclusions`. -/
def ZipDirWithExclusions (E : Env) (dir out : String) (excluded : List String) :
    Go (Option Error) :=
  Go.call (Call.ZipDirWithExclusions dir out excluded)
    (fun h => E.ZipDirWithExclusions h dir out excluded)

/-- `utils.RunCmd`. -/
def RunCmd (E : Env) (command : String) : Go (String × Option Error) :=
  Go.call (Call.RunCmd command) (fun h => E.RunCmd h command)

/-- `fmt.Print`, `fmt.Printf` and `fmt.Println` with the text already formatted. -/
def Print (s : String) : Go Unit :=
  Go.call (Call.Print s) (fun _ => ())

/-- The builtin `print`, which writes to standard error. -/
def PrintErr (s : String) : Go Unit :=
  Go.call (Call.PrintErr s) (fun _ => ())

/-! ## Activation (windowsClient.go, lines 72-97) -/

/-- `Client.MakeSymlink`.  The condition `err != nil && !fileInfo.IsDir()` is evaluated
left to right: the method call on `fileInfo` happens only when `err != nil`, and panics
when `fileInfo` is nil. -/
def MakeSymlink (E : Env) (version srcPath : String) : Go Bool := do
  let st ← osStat E srcPath
  let fileInfo := st.1
  let err := st.2
  let notInstalled ← (if err.isSome then
      match fileInfo with
      | none => Go.panic nilDereference
      | some fi => pure (!fi.IsDir)
    else pure false : Go Bool)
  if notInstalled then
    Go.fatal ("Python \"" ++ version ++ "\" is not installed. Try installing it first...")
  else do
    let symlinkCommand := "New-Item -Force -ItemType SymbolicLink -Path '" ++ SymlinkDest
      ++ "' -Target '" ++ srcPath ++ "'"
    let command := ["powershell.exe", "-noprofile",
      "Start-Process -WindowStyle hidden -Verb RunAs -Wait powershell.exe -Args \""
        ++ symlinkCommand ++ "\""]
    Print "Making symlink... "
    let r ← RunCmd E (" ".intercalate command)
    match r.2 with
    | some e => do
      PrintErr "Couldn't create the symlink, exiting ..."
      Go.fatal e.msg
    | none => do
      Print "Done!\n"
      return true

/-! ## The legacy strategy (installPackage.go, lines 92-152) -/

/-- The loop of lines 121-129: move every entry of `DLLs` one level up; a failed
rename panics. -/
def moveDLLsOrPanic (E : Env) (dllsPath unpackedPythonPath : String) : List String → Go Unit
  | [] => pure ()
  | file :: rest => do
    let oldPath := E.pathJoin [dllsPath, file]
    let newPath := E.pathJoin [unpackedPythonPath, file]
    let err ← osRename E oldPath newPath
    match err with
    | some e => do
      Print " \n"
      Go.panic e.msg
    | none => moveDLLsOrPanic E dllsPath unpackedPythonPath rest

/-- `Client.python2Install`. -/
def python2Install (E : Env) (_version : PythonVersion)
    (unpackedPythonPath offlineFilePath : String) : Go String := do
  Print "Unpacking installer data... "
  let absOfflineFilePath := E.filepathAbs offlineFilePath
  let absUnpackedPythonPath := E.filepathAbs unpackedPythonPath
  let command := "msiexec /n /a " ++ absOfflineFilePath ++ " /qn TARGETDIR="
    ++ absUnpackedPythonPath
  let r ← RunCmd E command
  match r.2 with
  | some e => do
    Print " \n"
    Go.fatal e.msg
  | none => do
  Print "Done!\n"
  Print "Sorting files... "
  let dllsPath := E.pathJoin [unpackedPythonPath, "DLLs"]
  let dir ← osReadDir E dllsPath
  match dir.2 with
  | some e => do
    Print " \n"
    Go.panic e.msg
  | none => do
  moveDLLsOrPanic E dllsPath unpackedPythonPath dir.1
  let _ ← osRemoveAll E dllsPath
  Print "Done!\n"
  Print "Installing \"pip\" package... \n"
  let pythonExe := E.filepathAbs (E.pathJoin [unpackedPythonPath, "python.exe"])
  let command := pythonExe ++ " -m ensurepip --default-pip && " ++ pythonExe
    ++ " -m pip install --upgrade pip"
  let r ← RunCmd E command
  Print (E.CmdColors "Reset")
  match r.2 with
  | some e => do
    Print " \n"
    Go.fatal e.msg
  | none => do
  Print "Done!\n"
  return absUnpackedPythonPath

/-! ## The modern strategy (installPackage.go, lines 154-264) -/

/-- Line 157: `fmt.Sprintf("python%d%d", Major(), Minor())`. -/
def pythonVersionBasename (vi : VersionInfo) : String :=
  "python" ++ toString vi.Major ++ toString vi.Minor

/-- The argument of `f.WriteString` at line 202. -/
def pthFileContent (pythonVersionBasename : String) : String :=
  pythonVersionBasename ++ ".zip" ++ "\n" ++ ".\n" ++ "\n"
    ++ "# Uncomment to run site.main() automatically\n" ++ "#import site\n" ++ "\n"
    ++ "Lib\\site-packages"

/-- The loop of lines 183-190: entries whose name contains `site-packages` are
skipped, every other entry is handed to `os.RemoveAll` (whose result is dropped). -/
def removeLibChildren (E : Env) (libDir : String) : List String → Go Unit
  | [] => pure ()
  | f :: rest =>
    if Contains f "site-packages" then removeLibChildren E libDir rest
    else do
      let fp := E.filepathJoin [libDir, f]
      let _ ← osRemoveAll E fp
      removeLibChildren E libDir rest

/-- The loop of lines 212-216: move every entry of `DLLs` one level up; the result
of `os.Rename` is dropped. -/
def moveDLLs (E : Env) (dllsDir finalPythonPath : String) : List String → Go Unit
  | [] => pure ()
  | f :: rest => do
    let fp := E.filepathJoin [dllsDir, f]
    let newFp := E.filepathJoin [finalPythonPath, f]
    let _ ← osRename E fp newFp
    moveDLLs E dllsDir finalPythonPath rest

/-- Line 239. -/
def malfunctioningVersions : List String := ["3.5.2", "3.5.2.1", "3.5.2.2", "3.6.0"]

/-- The loop of lines 241-246: the first entry equal to the version number replaces
the command and ends the loop. -/
def bootstrapLoop (pythonExe VersionNumber : String) : List String → String → String
  | [], command => command
  | s :: rest, command =>
    if s = VersionNumber then pythonExe ++ " -m easy_install pip easy_install"
    else bootstrapLoop pythonExe VersionNumber rest command

/-- Lines 237-248: the command handed to `utils.RunCmd`. -/
def bootstrapCommand (pythonExe pipInstallationScriptFilepath VersionNumber : String) :
    String :=
  let command := pythonExe ++ " " ++ pipInstallationScriptFilepath
  let command := bootstrapLoop pythonExe VersionNumber malfunctioningVersions command
  command ++ (" && " ++ pythonExe ++ " -m pip install --upgrade pip")

/-- `Client.python3Install`.  The results of `UnzipFile`, `os.Rename`, `os.RemoveAll`,
`ZipDirWithExclusions`, `WriteString` and of the second `DownloadFile` are dropped,
as in the source.  The deferred `f.Close()` runs on the normal return only
(`log.Fatal` exits the process without running deferred calls). -/
def python3Install (E : Env) (version : PythonVersion)
    (unpackedPythonPath finalPythonPath offlineFilePath : String) : Go String := do
  let pipInstallationScriptFilepath :=
    E.filepathJoin [finalPythonPath, "Tools", version.PipVersion.Filename]
  let pythonVersionBasename := pythonVersionBasename version.VersionInfo
  Print "Sorting files and fixing bugs... "
  let _ ← UnzipFile E offlineFilePath unpackedPythonPath
  let _ ← osRename E (E.filepathJoin [unpackedPythonPath, "tools"]) finalPythonPath
  let _ ← osRemoveAll E unpackedPythonPath
  let dirToZip := E.filepathJoin [finalPythonPath, "Lib"]
  let ouputFilePath := E.filepathJoin [finalPythonPath, pythonVersionBasename ++ ".zip"]
  let excludedFiles := ["site-packages"]
  let _ ← ZipDirWithExclusions E (dirToZip ++ "\\") ouputFilePath excludedFiles
  let libDir := E.filepathJoin [finalPythonPath, "Lib"]
  let dir ← osReadDir E libDir
  match dir.2 with
  | some e => do
    Print " \n"
    Go.fatal e.msg
  | none => do
  removeLibChildren E libDir dir.1
  let pthFileFilepath := E.filepathJoin [finalPythonPath, pythonVersionBasename ++ "._pth"]
  let err ← osCreate E pthFileFilepath
  match err with
  | some e => do
    Print " \n"
    Go.fatal e.msg
  | none => do
  let _ ← WriteString E pthFileFilepath (pthFileContent pythonVersionBasename)
  let dllsDir := E.filepathJoin [finalPythonPath, "DLLs"]
  let dir ← osReadDir E dllsDir
  match dir.2 with
  | some e => do
    Print " \n"
    Go.fatal e.msg
  | none => do
  moveDLLs E dllsDir finalPythonPath dir.1
  let _ ← osRemoveAll E dllsDir
  Print "Done!\n"
  let st ← osStat E pipInstallationScriptFilepath
  if st.2.isSome then
    Print ("Downloading \"get-pip.py\" from \"" ++ version.PipVersion.DownloadUrl
      ++ "\" ...\n")
    let _ ← DownloadFile E version.PipVersion.DownloadUrl pipInstallationScriptFilepath
  Print "Installing \"pip\" package... \n"
  Print (E.CmdColors "Orange")
  let pythonExe := E.filepathJoin [finalPythonPath, "python.exe"]
  Print ("Python.exe path: " ++ pythonExe ++ "\n")
  let command := bootstrapCommand pythonExe pipInstallationScriptFilepath version.VersionNumber
  let r ← RunCmd E command
  Print (E.CmdColors "Reset")
  match r.2 with
  | some e => do
    Print " \n"
    Go.fatal e.msg
  | none => do
  Print "Done!\n"
  let returnValue := E.filepathAbs finalPythonPath
  Close pthFileFilepath
  return returnValue

/-! ## The pipeline (installPackage.go, lines 15-90) -/

/-- Lines 61-70 of `InstallNewVersion`: the strategy is chosen by the major version. -/
def installStrategy (E : Env) (version : PythonVersion)
    (unpackedPythonPath offlineFilePath : String) : Go String :=
  if version.VersionInfo.Major = 2 then
    python2Install E version unpackedPythonPath offlineFilePath
  else
    let finalPythonPath := unpackedPythonPath
    let unpackedPythonPath := unpackedPythonPath ++ "temp"
    python3Install E version unpackedPythonPath finalPythonPath offlineFilePath

/-- `Client.InstallNewVersion`.  The catalog is the one `fetchAllAvailableVersions`
leaves in the client. -/
def InstallNewVersion (E : Env) (client : Client) (v : String) : Go Unit := do
  let client ← Go.call Call.fetchAllAvailableVersions
    (fun h => E.fetchAllAvailableVersions h client)
  let version ← Go.lift (resolveVersion E client.PythonVersions v)
  let unpackedPythonPath := E.pathJoin [PythonRootContainer, version.VersionNumber]
  let offlineFilePath := E.pathJoin [client.AppRoot, version.InstallerFilename]
  let st ← osStat E unpackedPythonPath
  if !IsNotExist st.2 then
    let err ← osRemoveAll E unpackedPythonPath
    match err with
    | some e => Go.fatal e.msg
    | none => pure ()
  Print ("Downloading \"" ++ version.InstallerFilename ++ "\"... ")
  let err ← DownloadFile E version.DownloadUrl offlineFilePath
  match err with
  | some e => Go.fatal e.msg
  | none => do
  Print "Done!\n"
  let pythonPath ← installStrategy E version unpackedPythonPath offlineFilePath
  if pythonPath = "" then
    Go.fatal "Python version not installed correctly, try again...\n"
  else do
  Print "Cleaning up... "
  let err ← osRemove E offlineFilePath
  match err with
  | some e => Go.fatal e.msg
  | none => do
  Print "Done!\n"
  let _ ← MakeSymlink E version.VersionNumber pythonPath
  Print ("Python " ++ version.VersionNumber ++ " installed successfully!\n")

/-! ## Predicates on runs -/

/-- Every call a run issues, from whatever history, satisfies `P`. -/
def Go.All {α : Type} (P : Call → Prop) (m : Go α) : Prop :=
  ∀ h, ∀ c ∈ (m h).2, P c

/-- Whenever the run returns, it has issued the call `c0`. -/
def Go.Issues {α : Type} (c0 : Call) (m : Go α) : Prop :=
  ∀ h a, (m h).1 = Outcome.ok a → c0 ∈ (m h).2

/-- Whenever the run returns, it returns `v`. -/
def Go.ReturnsOnly {α : Type} (v : α) (m : Go α) : Prop :=
  ∀ h a, (m h).1 = Outcome.ok a → a = v

/-- The calls a run issues after `m` has returned, `f` being what follows. -/
def Go.rest {α β : Type} (m : Go α) (f : α → Go β) (h : Trace) : Trace :=
  match m h with
  | (Outcome.ok a, c) => (f a (h ++ c)).2
  | (Outcome.fatal _, _) => []
  | (Outcome.panic _, _) => []

/-- The calls `python3Install` may issue, one case per call site. -/
inductive Py3Call (E : Env) (version : PythonVersion)
    (unpackedPythonPath finalPythonPath offlineFilePath : String) : Call → Prop where
  | print (s : String) : Py3Call E version unpackedPythonPath finalPythonPath
      offlineFilePath (Call.Print s)
  | unzip : Py3Call E version unpackedPythonPath finalPythonPath offlineFilePath
      (Call.UnzipFile offlineFilePath unpackedPythonPath)
  | promote : Py3Call E version unpackedPythonPath finalPythonPath offlineFilePath
      (Call.Rename (E.filepathJoin [unpackedPythonPath, "tools"]) finalPythonPath)
  | removeTemp : Py3Call E version unpackedPythonPath finalPythonPath offlineFilePath
      (Call.RemoveAll unpackedPythonPath)
  | zip : Py3Call E version unpackedPythonPath finalPythonPath offlineFilePath
      (Call.ZipDirWithExclusions (E.filepathJoin [finalPythonPath, "Lib"] ++ "\\")
        (E.filepathJoin [finalPythonPath,
          pythonVersionBasename version.VersionInfo ++ ".zip"]) ["site-packages"])
  | listLib : Py3Call E version unpackedPythonPath finalPythonPath offlineFilePath
      (Call.ReadDir (E.filepathJoin [finalPythonPath, "Lib"]))
  | removeLibChild (f : String) (hf : Contains f "site-packages" = false) :
      Py3Call E version unpackedPythonPath finalPythonPath offlineFilePath
        (Call.RemoveAll (E.filepathJoin [E.filepathJoin [finalPythonPath, "Lib"], f]))
  | createPth : Py3Call E version unpackedPythonPath finalPythonPath offlineFilePath
      (Call.Create (E.filepathJoin [finalPythonPath,
        pythonVersionBasename version.VersionInfo ++ "._pth"]))
  | writePth : Py3Call E version unpackedPythonPath finalPythonPath offlineFilePath
      (Call.WriteString
        (E.filepathJoin [finalPythonPath,
          pythonVersionBasename version.VersionInfo ++ "._pth"])
        (pthFileContent (pythonVersionBasename version.VersionInfo)))
  | listDLLs : Py3Call E version unpackedPythonPath finalPythonPath offlineFilePath
      (Call.ReadDir (E.filepathJoin [finalPythonPath, "DLLs"]))
  | moveDLL (f : String) : Py3Call E version unpackedPythonPath finalPythonPath
      offlineFilePath
      (Call.Rename (E.filepathJoin [E.filepathJoin [finalPythonPath, "DLLs"], f])
        (E.filepathJoin [finalPythonPath, f]))
  | removeDLLs : Py3Call E version unpackedPythonPath finalPythonPath offlineFilePath
      (Call.RemoveAll (E.filepathJoin [finalPythonPath, "DLLs"]))
  | statScript : Py3Call E version unpackedPythonPath finalPythonPath offlineFilePath
      (Call.Stat (E.filepathJoin [finalPythonPath, "Tools", version.PipVersion.Filename]))
  | downloadScript : Py3Call E version unpackedPythonPath finalPythonPath offlineFilePath
      (Call.DownloadFile version.PipVersion.DownloadUrl
        (E.filepathJoin [finalPythonPath, "Tools", version.PipVersion.Filename]))
  | bootstrap : Py3Call E version unpackedPythonPath finalPythonPath offlineFilePath
      (Call.RunCmd (bootstrapCommand (E.filepathJoin [finalPythonPath, "python.exe"])
        (E.filepathJoin [finalPythonPath, "Tools", version.PipVersion.Filename])
        version.VersionNumber))
  | closePth : Py3Call E version unpackedPythonPath finalPythonPath offlineFilePath
      (Call.Close (E.filepathJoin [finalPythonPath,
        pythonVersionBasename version.VersionInfo ++ "._pth"]))

/-! ## Sample data for concrete runs -/

/-- The catalog invariant of the spec: every identifier of `All` has a descriptor in
the mapping. -/
def CatalogInvariant (pvs : PythonVersions) : Prop :=
  ∀ id ∈ pvs.All, (pvs.Classes id).isSome = true

/-- A descriptor of a 3.x release. -/
def py311 : PythonVersion :=
  ⟨"3.11.0", "https://example.org/python.3.11.0.nupkg", "python-3.11.0.zip", ⟨3, 11⟩,
    ⟨"get-pip.py", "https://bootstrap.pypa.io/get-pip.py"⟩⟩

/-- A descriptor of a 2.x release. -/
def py27 : PythonVersion :=
  ⟨"2.7.18", "https://example.org/python-2.7.18.msi", "python-2.7.18.msi", ⟨2, 7⟩,
    ⟨"get-pip.py", "https://bootstrap.pypa.io/pip/2.7/get-pip.py"⟩⟩

/-- A descriptor whose identifier has capital letters. -/
def py313rc : PythonVersion :=
  ⟨"3.13.0RC1", "https://example.org/python.3.13.0-rc1.nupkg", "python-3.13.0rc1.zip",
    ⟨3, 13⟩, ⟨"get-pip.py", "https://bootstrap.pypa.io/get-pip.py"⟩⟩

/-- A catalog with two stable releases. -/
def sampleCatalog : PythonVersions where
  All := ["3.11.0", "2.7.18"]
  Stable := ["3.11.0", "2.7.18"]
  Unstable := []
  Classes := fun k =>
    if k = "3.11.0" then some py311 else if k = "2.7.18" then some py27 else none
  CreationDate := 0

/-- A catalog without any stable release. -/
def noStableCatalog : PythonVersions where
  All := ["3.13.0RC1"]
  Stable := []
  Unstable := ["3.13.0RC1"]
  Classes := fun k => if k = "3.13.0RC1" then some py313rc else none
  CreationDate := 0

/-- A catalog that lists a pre-release under an identifier with capital letters; every
listed identifier has its descriptor. -/
def capitalsCatalog : PythonVersions where
  All := ["3.13.0RC1", "3.11.0"]
  Stable := ["3.11.0"]
  Unstable := ["3.13.0RC1"]
  Classes := fun k =>
    if k = "3.13.0RC1" then some py313rc else if k = "3.11.0" then some py311 else none
  CreationDate := 0

/-- A client holding the given catalog. -/
def clientWith (pvs : PythonVersions) : Client :=
  ⟨"C:\\pvm", "amd64", pvs, true, 0⟩

/-- The value of `strings.ToLower` on a string of ASCII characters: the letters `A`
to `Z` are lowered, nothing else changes.  The sample runs lower ASCII tokens only. -/
def asciiToLower (s : String) : String := String.mk (s.data.map Char.toLower)

/-- The components of a path, split at the separators. -/
def splitPath (isSep : Char → Bool) : List Char → List (List Char)
  | [] => [[]]
  | c :: cs =>
    if isSep c then [] :: splitPath isSep cs
    else
      match splitPath isSep cs with
      | [] => [[c]]
      | w :: ws => (c :: w) :: ws

/-- The lexical cleaning of `path.Clean` and `filepath.Clean` on components: empty
components and `.` are dropped, `..` takes the component before it away (`acc` holds the
components kept so far, last first). -/
def cleanComponents (rooted : Bool) : List (List Char) → List (List Char) → List (List Char)
  | [], acc => acc.reverse
  | c :: cs, acc =>
    if c = [] ∨ c = ['.'] then cleanComponents rooted cs acc
    else if c = ['.', '.'] then
      match acc with
      | [] => if rooted then cleanComponents rooted cs [] else cleanComponents rooted cs [c]
      | a :: rest =>
        if a = ['.', '.'] then cleanComponents rooted cs (c :: acc)
        else cleanComponents rooted cs rest
    else cleanComponents rooted cs (c :: acc)

/-- The components joined by a separator. -/
def joinComponents (sep : Char) : List (List Char) → List Char
  | [] => []
  | w :: ws =>
    match ws with
    | [] => w
    | _ :: _ => w ++ sep :: joinComponents sep ws

/-- `path.Clean`: the separator is the slash, a backslash is an ordinary character. -/
def slashClean (p : String) : String :=
  let rooted := startsWith p.data ['/']
  let body := joinComponents '/'
    (cleanComponents rooted (splitPath (fun c => c == '/') p.data) [])
  if rooted then String.mk ('/' :: body) else if body = [] then "." else String.mk body

/-- `path.Join`. -/
def slashJoin (elems : List String) : String :=
  if elems.filter (fun e => e ≠ "") = [] then ""
  else slashClean ("/".intercalate (elems.filter (fun e => e ≠ "")))

/-- The separators of a Windows path. -/
def winIsSep (c : Char) : Bool := c == '\\' || c == '/'

/-- The cleaning of `filepath.Clean` on Windows, for a path without a volume name. -/
def winCleanNoVolume (cs : List Char) : List Char :=
  let rooted := match cs with
    | c :: _ => winIsSep c
    | [] => false
  let body := joinComponents '\\' (cleanComponents rooted (splitPath winIsSep cs) [])
  if rooted then '\\' :: body else if body = [] then ['.'] else body

/-- `filepath.Clean` on Windows, for paths whose volume name, if any, is a drive letter
(no UNC paths, no device names): both separators are read, the backslash is written. -/
def winClean (p : String) : String :=
  match p.data with
  | d :: ':' :: rest => String.mk (d :: ':' :: winCleanNoVolume rest)
  | cs => String.mk (winCleanNoVolume cs)

/-- `filepath.Join` on Windows, under the same restriction as `winClean`. -/
def winJoin (elems : List String) : String :=
  if elems.filter (fun e => e ≠ "") = [] then ""
  else winClean ("\\".intercalate (elems.filter (fun e => e ≠ "")))

/-- `filepath.Abs` on Windows with working directory `cwd`, under the same restriction
as `winClean`: a path with a drive letter and a root is cleaned, any other is joined
to the working directory. -/
def winAbs (cwd p : String) : String :=
  match p.data with
  | _ :: ':' :: c :: _ => if winIsSep c then winClean p else winJoin [cwd, p]
  | _ => winJoin [cwd, p]

/-- An answer "no such file". -/
def errNotExist : Error := ⟨"The system cannot find the file specified.", true⟩

/-- A world in which every call succeeds: every path exists and is a directory, but
for the bootstrap script, which is still to be downloaded; `Lib` holds three
entries and `DLLs` two.  The working directory is `C:\pvm`. -/
def sampleEnv : Env where
  ToLower := asciiToLower
  pathJoin := slashJoin
  filepathJoin := winJoin
  filepathAbs := winAbs "C:\\pvm"
  CmdColors := fun _ => ""
  fetchAllAvailableVersions := fun _ c => c
  Stat := fun _ p =>
    if p = "Python\\3.11.0\\Tools\\get-pip.py" then (none, some errNotExist)
    else (some ⟨true⟩, none)
  RemoveAll := fun _ _ => none
  Remove := fun _ _ => none
  Rename := fun _ _ _ => none
  ReadDir := fun _ p =>
    if p = "Python\\3.11.0\\Lib" then (["os.py", "site-packages", "site-packages-old"], none)
    else if p = "Python\\3.11.0\\DLLs" then (["python3.dll", "sqlite3.dll"], none)
    else if p = ".\\Python/2.7.18/DLLs" then (["python27.dll"], none)
    else ([], none)
  Create := fun _ _ => none
  WriteString := fun _ _ _ => none
  DownloadFile := fun _ _ _ => none
  UnzipFile := fun _ _ _ => none
  ZipDirWithExclusions := fun _ _ _ _ => none
  RunCmd := fun _ _ => ("", none)

/-- The world of `sampleEnv`, but every path is a regular file. -/
def regularFileEnv : Env :=
  { sampleEnv with Stat := fun _ _ => (some ⟨false⟩, none) }

/-- The world of `sampleEnv`, but no path exists: `os.Stat` answers with a nil
`FileInfo` and a "does not exist" error. -/
def nothingExistsEnv : Env :=
  { sampleEnv with Stat := fun _ _ => (none, some errNotExist) }

/-- The world of `sampleEnv`, but compressing a directory always reports an error. -/
def zipFailsEnv : Env :=
  { sampleEnv with
    ZipDirWithExclusions := fun _ _ _ _ => some ⟨"zip: cannot write the archive", false⟩ }

/-- The world of `sampleEnv`, but the download of the bootstrap script reports an
error (the download of the artifact still succeeds). -/
def scriptDownloadFailsEnv : Env :=
  { sampleEnv with
    DownloadFile := fun _ url _ =>
      if url = "https://bootstrap.pypa.io/get-pip.py" then
        some ⟨"Get \"https://bootstrap.pypa.io/get-pip.py\": dial tcp: i/o timeout", false⟩
      else none }

/-! ## A simulated file system

The worlds above answer by fiat.  The worlds below keep a file system: it starts from
a list of files and every call changes it as the library documents, so that what
`os.Stat` and `os.ReadDir` answer follows from the calls issued before. -/

/-- A file system, as the list of its files by absolute path; a directory exists when
a file lies below it. -/
abbrev Files := List String

/-- Whether `file` lies below the directory `dir`. -/
def below (dir file : String) : Bool := startsWith file.data (dir.data ++ ['\\'])

/-- Whether `file` is `p` or lies below it. -/
def atOrBelow (p file : String) : Bool := file == p || below p file

/-- Whether the path exists, as a file or as a directory. -/
def existsIn (fs : Files) (p : String) : Bool := fs.any (atOrBelow p)

/-- The path of `file` once the tree at `src` has been renamed to `dst`. -/
def moved (src dst file : String) : String :=
  if atOrBelow src file then String.mk (dst.data ++ file.data.drop src.data.length)
  else file

/-- The name of the child of `dir` on the way to `file`, when `file` lies below `dir`. -/
def childOf (dir file : String) : Option String :=
  if below dir file then
    some (String.mk ((file.data.drop (dir.data.length + 1)).takeWhile (fun c => c != '\\')))
  else none

/-- The file system with the file added. -/
def addFile (fs : Files) (p : String) : Files := if fs.contains p then fs else fs ++ [p]

/-- The names of the children of a directory, each once. -/
def children (fs : Files) (dir : String) : List String :=
  (fs.filterMap (childOf dir)).foldl (fun acc n => if acc.contains n then acc else acc ++ [n]) []

/-- The absolute form of a path in the simulated worlds, whose working directory is
`C:\pvm`. -/
def norm (p : String) : String := winAbs "C:\\pvm" p

/-- An answer "access denied". -/
def errDenied : Error := ⟨"Access is denied.", false⟩

/-- A simulated world: the files it starts with, whether `os.Rename` and
`os.RemoveAll` are denied (another process holds the files open), and the files the
downloaded archive extracts to (`none`: the archive cannot be read). -/
structure SimWorld where
  files : Files
  locked : Bool
  archive : Option (List String)

/-- The file system after one more call.  Modelled from the spec:
`extract(archivePath, destDir)` writes the files of the archive below `destDir` and
leaves every other file alone, `compressDirectory(srcDir, destZipPath, ..)` writes
`destZipPath`, `download(url, destPath)` writes `destPath`; the `os` calls act as the
Go library documents them. -/
def SimWorld.step (w : SimWorld) (fs : Files) : Call → Files
  | Call.RemoveAll p => if w.locked then fs else fs.filter (fun f => !atOrBelow (norm p) f)
  | Call.Remove p => fs.filter (fun f => f != norm p)
  | Call.Rename a b =>
    if w.locked || !existsIn fs (norm a) || existsIn fs (norm b) then fs
    else fs.map (moved (norm a) (norm b))
  | Call.UnzipFile _ dest =>
    match w.archive with
    | none => fs
    | some names => names.foldl (fun acc n => addFile acc (norm (winJoin [dest, n]))) fs
  | Call.DownloadFile _ dest => addFile fs (norm dest)
  | Call.Create p => addFile fs (norm p)
  | Call.ZipDirWithExclusions dir out _ =>
    if existsIn fs (norm dir) then addFile fs (norm out) else fs
  | _ => fs

/-- The file system after the calls of a history. -/
def SimWorld.filesAfter (w : SimWorld) (h : Trace) : Files := h.foldl w.step w.files

/-- The answers of a simulated world, read off its file system. -/
def SimWorld.env (w : SimWorld) : Env where
  ToLower := asciiToLower
  pathJoin := slashJoin
  filepathJoin := winJoin
  filepathAbs := norm
  CmdColors := fun _ => ""
  fetchAllAvailableVersions := fun _ c => c
  Stat := fun h p =>
    if (w.filesAfter h).contains (norm p) then (some ⟨false⟩, none)
    else if existsIn (w.filesAfter h) (norm p) then (some ⟨true⟩, none)
    else (none, some errNotExist)
  RemoveAll := fun _ _ => if w.locked then some errDenied else none
  Remove := fun h p => if (w.filesAfter h).contains (norm p) then none else some errNotExist
  Rename := fun h a b =>
    if w.locked then some errDenied
    else if !existsIn (w.filesAfter h) (norm a) then some errNotExist
    else if existsIn (w.filesAfter h) (norm b) then some errDenied
    else none
  ReadDir := fun h p =>
    if existsIn (w.filesAfter h) (norm p) && !(w.filesAfter h).contains (norm p) then
      (children (w.filesAfter h) (norm p), none)
    else ([], some errNotExist)
  Create := fun _ _ => none
  WriteString := fun _ _ _ => none
  DownloadFile := fun _ _ _ => none
  UnzipFile := fun _ _ _ =>
    match w.archive with
    | none => some ⟨"zip: not a valid zip file", false⟩
    | some _ => none
  ZipDirWithExclusions := fun h dir _ _ =>
    if existsIn (w.filesAfter h) (norm dir) then none else some errNotExist
  RunCmd := fun _ _ => ("", none)

/-- The world of a first install on a fresh machine: the archive is sound, but a
scanner holds the extracted files open, so that `os.Rename` and `os.RemoveAll` are
denied. -/
def firstInstallWorld : SimWorld where
  files := []
  locked := true
  archive := some ["python.nuspec", "tools\\python.exe", "tools\\Lib\\os.py",
    "tools\\Lib\\site-packages\\README.txt", "tools\\DLLs\\python3.dll"]

/-- The files the first install leaves behind. -/
def filesAfterFirstInstall : Files :=
  ["C:\\pvm\\python-3.11.0.zip",
    "C:\\pvm\\Python\\3.11.0temp\\python.nuspec",
    "C:\\pvm\\Python\\3.11.0temp\\tools\\python.exe",
    "C:\\pvm\\Python\\3.11.0temp\\tools\\Lib\\os.py",
    "C:\\pvm\\Python\\3.11.0temp\\tools\\Lib\\site-packages\\README.txt",
    "C:\\pvm\\Python\\3.11.0temp\\tools\\DLLs\\python3.dll"]

/-- The world of the second install: it starts from what the first install left,
nothing is held open any more, and the archive downloaded this time cannot be read. -/
def secondInstallWorld : SimWorld where
  files := filesAfterFirstInstall
  locked := false
  archive := none

/-! ## Runs, step by step -/

/-- A call followed by `f`: the call is issued first, `f` sees its answer and the
extended history. -/
theorem bind_call_apply {α β : Type} (c : Call) (answer : Trace → α) (f : α → Go β)
    (h : Trace) :
    (Go.call c answer >>= f) h
      = ((f (answer h) (h ++ [c])).1, c :: (f (answer h) (h ++ [c])).2) := by
  simp [bind, Go.bind, Go.call]

/-- A returned value is handed on without any call. -/
theorem bind_pure_apply {α β : Type} (a : α) (f : α → Go β) (h : Trace) :
    (pure a >>= f) h = f a h := by
  simp [bind, Go.bind, pure, Go.pure]

/-- Nothing runs after a fatal exit. -/
theorem bind_fatal_apply {α β : Type} (msg : String) (f : α → Go β) (h : Trace) :
    (Go.fatal msg >>= f) h = (Outcome.fatal msg, []) := by
  simp [bind, Go.bind, Go.fatal]

/-- Nothing runs after a panic. -/
theorem bind_panic_apply {α β : Type} (msg : String) (f : α → Go β) (h : Trace) :
    (Go.panic msg >>= f) h = (Outcome.panic msg, []) := by
  simp [bind, Go.bind, Go.panic]

/-- When the first run returns, the second continues from the extended history. -/
theorem bind_of_ok {α β : Type} (m : Go α) (f : α → Go β) (h : Trace) (a : α)
    (c : Trace) (hm : m h = (Outcome.ok a, c)) :
    (m >>= f) h = ((f a (h ++ c)).1, c ++ (f a (h ++ c)).2) := by
  simp [bind, Go.bind, hm]

/-- A computation that yields a value hands it on without any call. -/
theorem bind_lift_ok_apply {α β : Type} (o : Outcome α) (a : α) (f : α → Go β)
    (h : Trace) (ho : o = Outcome.ok a) : (Go.lift o >>= f) h = f a h := by
  subst ho
  simp [bind, Go.bind, Go.lift]

/-- The calls of a sequence are the calls of its first run followed by those of the
remainder. -/
theorem bind_calls_eq {α β : Type} (m : Go α) (f : α → Go β) (h : Trace) :
    ((m >>= f) h).2 = (m h).2 ++ Go.rest m f h := by
  simp only [bind, Go.bind, Go.rest]
  rcases hmh : m h with ⟨o, c⟩
  cases o <;> simp

/-! ## What a run may issue -/

/-- Returning issues no call. -/
theorem all_pure {α : Type} (P : Call → Prop) (a : α) : Go.All P (pure a : Go α) := by
  intro h c hc
  simp [pure, Go.pure] at hc

/-- A fatal exit issues no call. -/
theorem all_fatal {α : Type} (P : Call → Prop) (msg : String) :
    Go.All P (Go.fatal msg : Go α) := by
  intro h c hc
  simp [Go.fatal] at hc

/-- A panic issues no call. -/
theorem all_panic {α : Type} (P : Call → Prop) (msg : String) :
    Go.All P (Go.panic msg : Go α) := by
  intro h c hc
  simp [Go.panic] at hc

/-- A computation without calls issues no call. -/
theorem all_lift {α : Type} (P : Call → Prop) (o : Outcome α) :
    Go.All P (Go.lift o) := by
  intro h c hc
  simp [Go.lift] at hc

/-- A single call satisfies `P` when the call does. -/
theorem all_call {α : Type} (P : Call → Prop) (c : Call) (answer : Trace → α)
    (hc : P c) : Go.All P (Go.call c answer) := by
  intro h c1 hc1
  simp only [Go.call, List.mem_singleton] at hc1
  rw [hc1]
  exact hc

/-- The calls of a sequence satisfy `P` when those of both parts do. -/
theorem all_bind {α β : Type} (P : Call → Prop) (m : Go α) (f : α → Go β)
    (hm : Go.All P m) (hf : ∀ a, Go.All P (f a)) : Go.All P (m >>= f) := by
  intro h c hc
  have hm1 := hm h
  simp only [bind, Go.bind] at hc
  rcases hmh : m h with ⟨o, c1⟩
  rw [hmh] at hc hm1
  cases o with
  | ok a =>
    simp only [List.mem_append] at hc
    rcases hc with hc | hc
    · exact hm1 c hc
    · exact hf a _ c hc
  | fatal msg => exact hm1 c hc
  | panic msg => exact hm1 c hc

/-- A call issues itself. -/
theorem issues_call {α : Type} (c : Call) (answer : Trace → α) :
    Go.Issues c (Go.call c answer) := by
  intro h a _
  simp [Go.call]

/-- A fatal exit never returns. -/
theorem issues_fatal {α : Type} (c0 : Call) (msg : String) :
    Go.Issues c0 (Go.fatal msg : Go α) := by
  intro h a ha
  simp [Go.fatal] at ha

/-- A panic never returns. -/
theorem issues_panic {α : Type} (c0 : Call) (msg : String) :
    Go.Issues c0 (Go.panic msg : Go α) := by
  intro h a ha
  simp [Go.panic] at ha

/-- What the first part of a sequence has issued, the sequence has issued. -/
theorem issues_bind_left {α β : Type} (c0 : Call) (m : Go α) (f : α → Go β)
    (hm : Go.Issues c0 m) : Go.Issues c0 (m >>= f) := by
  intro h b hb
  have hm1 := hm h
  simp only [bind, Go.bind] at hb ⊢
  rcases hmh : m h with ⟨o, c1⟩
  rw [hmh] at hb hm1
  cases o with
  | ok a => exact List.mem_append_left _ (hm1 a rfl)
  | fatal msg => simp at hb
  | panic msg => simp at hb

/-- What every continuation issues, the sequence issues. -/
theorem issues_bind_right {α β : Type} (c0 : Call) (m : Go α) (f : α → Go β)
    (hf : ∀ a, Go.Issues c0 (f a)) : Go.Issues c0 (m >>= f) := by
  intro h b hb
  simp only [bind, Go.bind] at hb ⊢
  rcases hmh : m h with ⟨o, c1⟩
  rw [hmh] at hb
  cases o with
  | ok a => exact List.mem_append_right _ (hf a _ b hb)
  | fatal msg => simp at hb
  | panic msg => simp at hb

/-- Returning `v` returns `v`. -/
theorem returnsOnly_pure {α : Type} (v : α) : Go.ReturnsOnly v (pure v : Go α) := by
  intro h a ha
  simp only [pure, Go.pure, Outcome.ok.injEq] at ha
  exact ha.symm

/-- A fatal exit returns nothing. -/
theorem returnsOnly_fatal {α : Type} (v : α) (msg : String) :
    Go.ReturnsOnly v (Go.fatal msg : Go α) := by
  intro h a ha
  simp [Go.fatal] at ha

/-- A panic returns nothing. -/
theorem returnsOnly_panic {α : Type} (v : α) (msg : String) :
    Go.ReturnsOnly v (Go.panic msg : Go α) := by
  intro h a ha
  simp [Go.panic] at ha

/-- A sequence returns what its continuation returns. -/
theorem returnsOnly_bind {α β : Type} (v : β) (m : Go α) (f : α → Go β)
    (hf : ∀ a, Go.ReturnsOnly v (f a)) : Go.ReturnsOnly v (m >>= f) := by
  intro h b hb
  simp only [bind, Go.bind] at hb
  rcases hmh : m h with ⟨o, c1⟩
  rw [hmh] at hb
  cases o with
  | ok a => exact hf a _ b hb
  | fatal msg => simp at hb
  | panic msg => simp at hb

/-! ## The loops in closed form -/

/-- The deletion loop never fails; it issues `os.RemoveAll` for the entries whose name
does not contain "site-packages", in listing order, and nothing else. -/
theorem removeLibChildren_eq (E : Env) (libDir : String) (files : List String)
    (h : Trace) :
    removeLibChildren E libDir files h
      = (Outcome.ok (),
          (files.filter (fun f => !Contains f "site-packages")).map
            (fun f => Call.RemoveAll (E.filepathJoin [libDir, f]))) := by
  induction files generalizing h with
  | nil => rfl
  | cons f rest ih =>
    by_cases hc : Contains f "site-packages" = true
    · simp [removeLibChildren, hc, ih]
    · simp only [removeLibChildren, hc, osRemoveAll]
      simp only [Bool.false_eq_true, if_false]
      rw [bind_call_apply]
      simp [hc, ih]

/-- The relocation loop of the modern strategy never fails; it issues one `os.Rename`
for every entry. -/
theorem moveDLLs_eq (E : Env) (dllsDir finalPythonPath : String) (files : List String)
    (h : Trace) :
    moveDLLs E dllsDir finalPythonPath files h
      = (Outcome.ok (),
          files.map (fun f => Call.Rename (E.filepathJoin [dllsDir, f])
            (E.filepathJoin [finalPythonPath, f]))) := by
  induction files generalizing h with
  | nil => rfl
  | cons f rest ih =>
    simp only [moveDLLs, osRename]
    rw [bind_call_apply]
    simp [ih]

/-- The deletion loop followed by `f`. -/
theorem bind_removeLibChildren_apply {β : Type} (E : Env) (libDir : String)
    (files : List String) (f : Unit → Go β) (h : Trace) :
    (removeLibChildren E libDir files >>= f) h
      = ((f () (h ++ (files.filter (fun f => !Contains f "site-packages")).map
            (fun f => Call.RemoveAll (E.filepathJoin [libDir, f])))).1,
          (files.filter (fun f => !Contains f "site-packages")).map
            (fun f => Call.RemoveAll (E.filepathJoin [libDir, f]))
          ++ (f () (h ++ (files.filter (fun f => !Contains f "site-packages")).map
            (fun f => Call.RemoveAll (E.filepathJoin [libDir, f])))).2) :=
  bind_of_ok _ _ _ _ _ (removeLibChildren_eq E libDir files h)

/-- The relocation loop followed by `f`. -/
theorem bind_moveDLLs_apply {β : Type} (E : Env) (dllsDir finalPythonPath : String)
    (files : List String) (f : Unit → Go β) (h : Trace) :
    (moveDLLs E dllsDir finalPythonPath files >>= f) h
      = ((f () (h ++ files.map (fun f => Call.Rename (E.filepathJoin [dllsDir, f])
            (E.filepathJoin [finalPythonPath, f])))).1,
          files.map (fun f => Call.Rename (E.filepathJoin [dllsDir, f])
            (E.filepathJoin [finalPythonPath, f]))
          ++ (f () (h ++ files.map (fun f => Call.Rename (E.filepathJoin [dllsDir, f])
            (E.filepathJoin [finalPythonPath, f])))).2) :=
  bind_of_ok _ _ _ _ _ (moveDLLs_eq E dllsDir finalPythonPath files h)

/-- Every call of the deletion loop is an `os.RemoveAll` of a child whose name does
not contain "site-packages". -/
theorem all_removeLibChildren (P : Call → Prop) (E : Env) (libDir : String)
    (files : List String)
    (hP : ∀ f, Contains f "site-packages" = false →
      P (Call.RemoveAll (E.filepathJoin [libDir, f]))) :
    Go.All P (removeLibChildren E libDir files) := by
  intro h c hc
  rw [removeLibChildren_eq] at hc
  simp only [List.mem_map, List.mem_filter] at hc
  obtain ⟨f, ⟨_, hf⟩, rfl⟩ := hc
  exact hP f (by simpa using hf)

/-- Every call of the relocation loop is an `os.Rename` of an entry of `DLLs`. -/
theorem all_moveDLLs (P : Call → Prop) (E : Env) (dllsDir finalPythonPath : String)
    (files : List String)
    (hP : ∀ f, P (Call.Rename (E.filepathJoin [dllsDir, f])
      (E.filepathJoin [finalPythonPath, f]))) :
    Go.All P (moveDLLs E dllsDir finalPythonPath files) := by
  intro h c hc
  rw [moveDLLs_eq] at hc
  simp only [List.mem_map] at hc
  obtain ⟨f, _, rfl⟩ := hc
  exact hP f

/-! ## Version resolution: claims C1, C2, C3 -/

/-- The loop leaves its accumulator alone when the token is not in the list. -/
theorem resolveLoop_of_not_mem (Classes : String → Option PythonVersion)
    (v inputVersion : String) (l : List String) (acc : Bool × PythonVersion)
    (h : v ∉ l) : resolveLoop Classes v inputVersion l acc = Outcome.ok acc := by
  induction l generalizing acc with
  | nil => rfl
  | cons pv rest ih =>
    have hne : pv ≠ v := fun e => h (by simp [e])
    have hrest : v ∉ rest := fun m => h (List.mem_cons_of_mem _ m)
    simp [resolveLoop, hne, ih acc hrest]

/-- With a descriptor under the lowered token, the loop ends with the descriptor when
the token is in the list. -/
theorem resolveLoop_of_mem (Classes : String → Option PythonVersion)
    (v inputVersion : String) (d : PythonVersion) (hd : Classes inputVersion = some d)
    (l : List String) (acc : Bool × PythonVersion) (h : v ∈ l) :
    resolveLoop Classes v inputVersion l acc = Outcome.ok (true, d) := by
  induction l generalizing acc with
  | nil => cases h
  | cons pv rest ih =>
    by_cases hpv : pv = v
    · by_cases hrest : v ∈ rest
      · simp [resolveLoop, hpv, hd, ih (true, d) hrest]
      · simp [resolveLoop, hpv, hd, resolveLoop_of_not_mem Classes v inputVersion rest _ hrest]
    · have hrest : v ∈ rest := by
        rcases List.mem_cons.mp h with e | m
        · exact absurd e.symm hpv
        · exact m
      simp [resolveLoop, hpv, ih acc hrest]

/-- Without a descriptor under the lowered token, the loop panics on the nil pointer
when the token is in the list. -/
theorem resolveLoop_of_mem_nil (Classes : String → Option PythonVersion)
    (v inputVersion : String) (hd : Classes inputVersion = none)
    (l : List String) (acc : Bool × PythonVersion) (h : v ∈ l) :
    resolveLoop Classes v inputVersion l acc = Outcome.panic nilDereference := by
  induction l generalizing acc with
  | nil => cases h
  | cons pv rest ih =>
    by_cases hpv : pv = v
    · simp [resolveLoop, hpv, hd]
    · have hrest : v ∈ rest := by
        rcases List.mem_cons.mp h with e | m
        · exact absurd e.symm hpv
        · exact m
      simp [resolveLoop, hpv, ih acc hrest]

/-- The alias resolves to the descriptor held under the first stable identifier. -/
theorem resolveVersion_latest (E : Env) (pvs : PythonVersions) (v latest : String)
    (rest : List String) (d : PythonVersion) (hv : E.ToLower v = "latest")
    (hs : pvs.Stable = latest :: rest) (hd : pvs.Classes latest = some d) :
    resolveVersion E pvs v = Outcome.ok d := by
  simp [resolveVersion, hv, hs, hd]

/-- The alias panics on an empty stable list, whatever the rest of the catalog. -/
theorem resolveVersion_latest_empty (E : Env) (pvs : PythonVersions) (v : String)
    (hv : E.ToLower v = "latest") (hs : pvs.Stable = []) :
    resolveVersion E pvs v = Outcome.panic indexOutOfRange := by
  simp [resolveVersion, hv, hs]

/-- A listed token that is not the alias resolves to the descriptor the mapping holds
under its lowered form, when there is one. -/
theorem resolveVersion_of_listed (E : Env) (pvs : PythonVersions) (v : String)
    (d : PythonVersion) (hmem : v ∈ pvs.All) (hnl : E.ToLower v ≠ "latest")
    (hd : pvs.Classes (E.ToLower v) = some d) :
    resolveVersion E pvs v = Outcome.ok d := by
  simp [resolveVersion, hnl,
    resolveLoop_of_mem pvs.Classes v (E.ToLower v) d hd pvs.All _ hmem]

/-- A listed token that is not the alias panics on the nil pointer when the mapping
holds nothing under its lowered form. -/
theorem resolveVersion_of_listed_nil (E : Env) (pvs : PythonVersions) (v : String)
    (hmem : v ∈ pvs.All) (hnl : E.ToLower v ≠ "latest")
    (hd : pvs.Classes (E.ToLower v) = none) :
    resolveVersion E pvs v = Outcome.panic nilDereference := by
  simp [resolveVersion, hnl,
    resolveLoop_of_mem_nil pvs.Classes v (E.ToLower v) hd pvs.All _ hmem]

/-- Under the catalog invariant a listed token that is its own lowered form and is not
the alias resolves to the descriptor held under it. -/
theorem resolveVersion_of_invariant (E : Env) (pvs : PythonVersions) (v : String)
    (hinv : CatalogInvariant pvs) (hmem : v ∈ pvs.All) (hnl : E.ToLower v ≠ "latest")
    (hlow : E.ToLower v = v) :
    ∃ d, pvs.Classes (E.ToLower v) = some d ∧ resolveVersion E pvs v = Outcome.ok d := by
  have hs := hinv v hmem
  rcases hc : pvs.Classes v with _ | d
  · simp [hc] at hs
  · exact ⟨d, by rw [hlow, hc], resolveVersion_of_listed E pvs v d hmem hnl (by rw [hlow, hc])⟩

/-- A token that does not resolve ends the install right after the catalog refresh,
with the outcome of the resolution. -/
theorem InstallNewVersion_of_fatal (E : Env) (client : Client) (v : String) (h : Trace)
    (msg : String)
    (hres : resolveVersion E (E.fetchAllAvailableVersions h client).PythonVersions v
      = Outcome.fatal msg) :
    InstallNewVersion E client v h = (Outcome.fatal msg, [Call.fetchAllAvailableVersions]) := by
  simp only [InstallNewVersion, bind, Go.bind, Go.call, Go.lift, hres, List.append_nil]

/-- A resolution that panics ends the install right after the catalog refresh. -/
theorem InstallNewVersion_of_panic (E : Env) (client : Client) (v : String) (h : Trace)
    (msg : String)
    (hres : resolveVersion E (E.fetchAllAvailableVersions h client).PythonVersions v
      = Outcome.panic msg) :
    InstallNewVersion E client v h = (Outcome.panic msg, [Call.fetchAllAvailableVersions]) := by
  simp only [InstallNewVersion, bind, Go.bind, Go.call, Go.lift, hres, List.append_nil]

/-- C1: whenever the lowered token is "latest" and the stable list is empty, the
resolution ends in the run-time panic of indexing an empty slice, and with it the whole
install, right after the catalog refresh; no error is reported through `log.Fatal`.
So it is at the catalog `noStableCatalog` for the tokens "latest" and "LATEST".  With a
non-empty stable list the alias resolves to the descriptor the mapping holds under the
first stable identifier. -/
theorem C1_latest_on_empty_stable_list_panics :
    noStableCatalog.Stable = []
      ∧ resolveVersion sampleEnv noStableCatalog "latest" = Outcome.panic indexOutOfRange
      ∧ resolveVersion sampleEnv noStableCatalog "LATEST" = Outcome.panic indexOutOfRange
      ∧ (∀ (E : Env) (client : Client) (v : String) (h : Trace),
          E.ToLower v = "latest" →
          (E.fetchAllAvailableVersions h client).PythonVersions.Stable = [] →
          InstallNewVersion E client v h
            = (Outcome.panic indexOutOfRange, [Call.fetchAllAvailableVersions]))
      ∧ (∀ (E : Env) (pvs : PythonVersions) (v : String), E.ToLower v = "latest" →
          pvs.Stable = [] → resolveVersion E pvs v = Outcome.panic indexOutOfRange)
      ∧ (∀ (E : Env) (pvs : PythonVersions) (v latest : String) (rest : List String)
            (d : PythonVersion), E.ToLower v = "latest" → pvs.Stable = latest :: rest →
          pvs.Classes latest = some d → resolveVersion E pvs v = Outcome.ok d) := by
  refine ⟨rfl, by decide, by decide, ?_, resolveVersion_latest_empty,
    resolveVersion_latest⟩
  intro E client v h hv hs
  exact InstallNewVersion_of_panic E client v h _
    (resolveVersion_latest_empty E _ v hv hs)

/-- C2: whenever a token is listed in `All`, is not the alias, and the mapping holds
nothing under its lowered form, the resolution ends in a nil-pointer panic, and with it
the whole install, right after the catalog refresh.  So it is at the catalog
`capitalsCatalog`, which satisfies the catalog invariant and lists "3.13.0RC1": the
mapping is asked for "3.13.0rc1".  (A listed token resolves when the mapping holds a
descriptor under its lowered form.) -/
theorem C2_listed_identifier_with_capitals_panics :
    CatalogInvariant capitalsCatalog
      ∧ "3.13.0RC1" ∈ capitalsCatalog.All
      ∧ sampleEnv.ToLower "3.13.0RC1" = "3.13.0rc1"
      ∧ capitalsCatalog.Classes "3.13.0RC1" = some py313rc
      ∧ capitalsCatalog.Classes "3.13.0rc1" = none
      ∧ resolveVersion sampleEnv capitalsCatalog "3.13.0RC1"
        = Outcome.panic nilDereference
      ∧ InstallNewVersion sampleEnv (clientWith capitalsCatalog) "3.13.0RC1" []
        = (Outcome.panic nilDereference, [Call.fetchAllAvailableVersions])
      ∧ (∀ (E : Env) (pvs : PythonVersions) (v : String), v ∈ pvs.All →
          E.ToLower v ≠ "latest" → pvs.Classes (E.ToLower v) = none →
          resolveVersion E pvs v = Outcome.panic nilDereference)
      ∧ (∀ (E : Env) (pvs : PythonVersions) (v : String) (d : PythonVersion),
          v ∈ pvs.All → E.ToLower v ≠ "latest" → pvs.Classes (E.ToLower v) = some d →
          resolveVersion E pvs v = Outcome.ok d) := by
  refine ⟨?_, by decide, by decide, by decide, by decide, by decide, by decide,
    resolveVersion_of_listed_nil, resolveVersion_of_listed⟩
  intro id hid
  have hcases : id = "3.13.0RC1" ∨ id = "3.11.0" := by
    simpa [capitalsCatalog] using hid
  rcases hcases with e | e <;> subst e <;> decide

/-- C3: for every catalog (as left by the refresh) and every token whose lowered form
is not "latest" and which is not verbatim in `All`, resolution fails with the reported
fatal error naming the token, and the install ends there: the only call issued is the
catalog refresh, so nothing is deleted, downloaded, installed or activated. -/
theorem C3_unknown_token_aborts (E : Env) (client : Client) (v : String) (h : Trace)
    (hnl : E.ToLower v ≠ "latest")
    (hni : v ∉ (E.fetchAllAvailableVersions h client).PythonVersions.All) :
    resolveVersion E (E.fetchAllAvailableVersions h client).PythonVersions v
        = Outcome.fatal ("\"" ++ v ++ "\" is not a valid python version.")
      ∧ InstallNewVersion E client v h
        = (Outcome.fatal ("\"" ++ v ++ "\" is not a valid python version."),
            [Call.fetchAllAvailableVersions]) := by
  have hres : resolveVersion E (E.fetchAllAvailableVersions h client).PythonVersions v
      = Outcome.fatal ("\"" ++ v ++ "\" is not a valid python version.") := by
    simp [resolveVersion, hnl, resolveLoop_of_not_mem _ v (E.ToLower v) _ _ hni]
  exact ⟨hres, InstallNewVersion_of_fatal E client v h _ hres⟩

/-- C3, at the sample catalog and the token "4.0". -/
theorem C3_unknown_token_aborts_witness :
    sampleEnv.ToLower "4.0" ≠ "latest"
      ∧ "4.0" ∉ (sampleEnv.fetchAllAvailableVersions []
          (clientWith sampleCatalog)).PythonVersions.All
      ∧ InstallNewVersion sampleEnv (clientWith sampleCatalog) "4.0" []
        = (Outcome.fatal ("\"" ++ "4.0" ++ "\" is not a valid python version."),
            [Call.fetchAllAvailableVersions]) :=
  ⟨by decide, by decide,
    (C3_unknown_token_aborts sampleEnv (clientWith sampleCatalog) "4.0" [] (by decide)
      (by decide)).2⟩

/-! ## The modern strategy: claims C5, C7, C8 -/

/-- Every call `python3Install` issues comes from one of its call sites. -/
theorem python3Install_calls (E : Env) (version : PythonVersion)
    (unpackedPythonPath finalPythonPath offlineFilePath : String) :
    Go.All (Py3Call E version unpackedPythonPath finalPythonPath offlineFilePath)
      (python3Install E version unpackedPythonPath finalPythonPath offlineFilePath) := by
  unfold python3Install
  simp only [Print, UnzipFile, osRename, osRemoveAll, ZipDirWithExclusions, osReadDir,
    osCreate, WriteString, osStat, DownloadFile, RunCmd, Close]
  repeat first
    | exact all_call _ _ _ (by constructor)
    | exact all_pure _ _
    | exact all_fatal _ _
    | exact all_removeLibChildren _ _ _ _ (fun f hf => Py3Call.removeLibChild f hf)
    | exact all_moveDLLs _ _ _ _ _ (fun f => Py3Call.moveDLL f)
    | refine all_bind _ _ _ ?_ (fun _ => ?_)
    | split

/-- A run of `python3Install` that returns has created and written the path file, run
the bootstrap command and returns the absolute final path. -/
theorem python3Install_ok (E : Env) (version : PythonVersion)
    (unpackedPythonPath finalPythonPath offlineFilePath : String) (h : Trace) (p : String)
    (hok : (python3Install E version unpackedPythonPath finalPythonPath offlineFilePath h).1
      = Outcome.ok p) :
    p = E.filepathAbs finalPythonPath
      ∧ Call.WriteString
          (E.filepathJoin [finalPythonPath,
            pythonVersionBasename version.VersionInfo ++ "._pth"])
          (pthFileContent (pythonVersionBasename version.VersionInfo))
        ∈ (python3Install E version unpackedPythonPath finalPythonPath offlineFilePath h).2
      ∧ Call.RunCmd (bootstrapCommand (E.filepathJoin [finalPythonPath, "python.exe"])
          (E.filepathJoin [finalPythonPath, "Tools", version.PipVersion.Filename])
          version.VersionNumber)
        ∈ (python3Install E version unpackedPythonPath finalPythonPath offlineFilePath h).2 := by
  refine ⟨?_, ?_, ?_⟩
  · revert h p
    show Go.ReturnsOnly _ _
    unfold python3Install
    repeat first
      | exact returnsOnly_pure _
      | exact returnsOnly_fatal _ _
      | refine returnsOnly_bind _ _ _ (fun _ => ?_)
      | split
  · revert h p
    show Go.Issues _ _
    unfold python3Install
    simp only [WriteString]
    repeat first
      | exact issues_fatal _ _
      | exact issues_bind_left _ _ _ (issues_call _ _)
      | refine issues_bind_right _ _ _ (fun _ => ?_)
      | split
  · revert h p
    show Go.Issues _ _
    unfold python3Install
    simp only [RunCmd]
    repeat first
      | exact issues_fatal _ _
      | exact issues_bind_left _ _ _ (issues_call _ _)
      | refine issues_bind_right _ _ _ (fun _ => ?_)
      | split

/-- Whatever the extraction, the promotion, the removal of the temporary path and the
compression answer, `python3Install` issues all of them and goes on to list `Lib`. -/
theorem python3Install_first_calls (E : Env) (version : PythonVersion)
    (unpackedPythonPath finalPythonPath offlineFilePath : String) (h : Trace) :
    ∃ rest,
      (python3Install E version unpackedPythonPath finalPythonPath offlineFilePath h).2
        = [Call.Print "Sorting files and fixing bugs... ",
            Call.UnzipFile offlineFilePath unpackedPythonPath,
            Call.Rename (E.filepathJoin [unpackedPythonPath, "tools"]) finalPythonPath,
            Call.RemoveAll unpackedPythonPath,
            Call.ZipDirWithExclusions (E.filepathJoin [finalPythonPath, "Lib"] ++ "\\")
              (E.filepathJoin [finalPythonPath,
                pythonVersionBasename version.VersionInfo ++ ".zip"]) ["site-packages"],
            Call.ReadDir (E.filepathJoin [finalPythonPath, "Lib"])]
          ++ rest := by
  simp only [python3Install, Print, UnzipFile, osRename, osRemoveAll, ZipDirWithExclusions,
    osReadDir, bind_call_apply, List.append_assoc, List.cons_append, List.nil_append]
  exact ⟨_, rfl⟩

/-- Up to the creation of the path file the calls of `python3Install` do not depend
on any answer but the listing of `Lib`: extraction, promotion, removal of the temporary
path, compression, listing, then one `os.RemoveAll` for every listed child whose name
does not contain "site-packages". -/
theorem python3Install_deletion_step (E : Env) (version : PythonVersion)
    (unpackedPythonPath finalPythonPath offlineFilePath : String) (h : Trace)
    (files : List String)
    (hdir : E.ReadDir (h ++ [Call.Print "Sorting files and fixing bugs... ",
          Call.UnzipFile offlineFilePath unpackedPythonPath,
          Call.Rename (E.filepathJoin [unpackedPythonPath, "tools"]) finalPythonPath,
          Call.RemoveAll unpackedPythonPath,
          Call.ZipDirWithExclusions (E.filepathJoin [finalPythonPath, "Lib"] ++ "\\")
            (E.filepathJoin [finalPythonPath,
              pythonVersionBasename version.VersionInfo ++ ".zip"]) ["site-packages"]])
        (E.filepathJoin [finalPythonPath, "Lib"]) = (files, none)) :
    ∃ rest,
      (python3Install E version unpackedPythonPath finalPythonPath offlineFilePath h).2
        = [Call.Print "Sorting files and fixing bugs... ",
            Call.UnzipFile offlineFilePath unpackedPythonPath,
            Call.Rename (E.filepathJoin [unpackedPythonPath, "tools"]) finalPythonPath,
            Call.RemoveAll unpackedPythonPath,
            Call.ZipDirWithExclusions (E.filepathJoin [finalPythonPath, "Lib"] ++ "\\")
              (E.filepathJoin [finalPythonPath,
                pythonVersionBasename version.VersionInfo ++ ".zip"]) ["site-packages"],
            Call.ReadDir (E.filepathJoin [finalPythonPath, "Lib"])]
          ++ (files.filter (fun f => !Contains f "site-packages")).map
              (fun f => Call.RemoveAll
                (E.filepathJoin [E.filepathJoin [finalPythonPath, "Lib"], f]))
          ++ Call.Create (E.filepathJoin [finalPythonPath,
              pythonVersionBasename version.VersionInfo ++ "._pth"]) :: rest := by
  simp only [python3Install, Print, UnzipFile, osRename, osRemoveAll, ZipDirWithExclusions,
    osReadDir, osCreate, bind_call_apply, List.append_assoc, List.cons_append,
    List.nil_append, hdir, bind_removeLibChildren_apply]
  exact ⟨_, rfl⟩

/-- The text of the path file, spelled out. -/
theorem pthFileContent_eq (basename : String) :
    pthFileContent basename
      = basename
        ++ ".zip\n.\n\n# Uncomment to run site.main() automatically\n#import site\n\nLib\\site-packages" := by
  simp only [pthFileContent, String.append_assoc]
  rfl

/-- C7: for every major and minor version number the basename is "python" followed by
the decimal digits of the major and then of the minor number (3.11 gives "python311");
whatever `python3Install` writes to a file, it writes to `<final>\<basename>._pth`, and
the text is `<basename>.zip`, newline, `.`, newline, an empty line, the comment line,
`#import site`, an empty line and `Lib\site-packages` with nothing after it; a run that
returns has written it; the compressed bundle is always `<final>\<basename>.zip`. -/
theorem C7_pth_file_content (E : Env) (version : PythonVersion)
    (unpackedPythonPath finalPythonPath offlineFilePath : String) (h : Trace) :
    pythonVersionBasename version.VersionInfo
        = "python" ++ (Nat.toDigits 10 version.VersionInfo.Major).asString
          ++ (Nat.toDigits 10 version.VersionInfo.Minor).asString
      ∧ pythonVersionBasename ⟨3, 11⟩ = "python311"
      ∧ (∀ file text, Call.WriteString file text
            ∈ (python3Install E version unpackedPythonPath finalPythonPath offlineFilePath h).2 →
          file = E.filepathJoin [finalPythonPath,
              pythonVersionBasename version.VersionInfo ++ "._pth"]
            ∧ text = pythonVersionBasename version.VersionInfo
              ++ ".zip\n.\n\n# Uncomment to run site.main() automatically\n#import site\n\nLib\\site-packages")
      ∧ (∀ p, (python3Install E version unpackedPythonPath finalPythonPath offlineFilePath h).1
            = Outcome.ok p →
          Call.WriteString
              (E.filepathJoin [finalPythonPath,
                pythonVersionBasename version.VersionInfo ++ "._pth"])
              (pythonVersionBasename version.VersionInfo
                ++ ".zip\n.\n\n# Uncomment to run site.main() automatically\n#import site\n\nLib\\site-packages")
            ∈ (python3Install E version unpackedPythonPath finalPythonPath offlineFilePath h).2)
      ∧ (∀ dir out excluded, Call.ZipDirWithExclusions dir out excluded
            ∈ (python3Install E version unpackedPythonPath finalPythonPath offlineFilePath h).2 →
          out = E.filepathJoin [finalPythonPath,
              pythonVersionBasename version.VersionInfo ++ ".zip"]) := by
  refine ⟨rfl, by decide, ?_, ?_, ?_⟩
  · intro file text hmem
    have hc := python3Install_calls E version unpackedPythonPath finalPythonPath
      offlineFilePath h _ hmem
    cases hc
    exact ⟨rfl, pthFileContent_eq _⟩
  · intro p hp
    rw [← pthFileContent_eq]
    exact (python3Install_ok E version unpackedPythonPath finalPythonPath offlineFilePath
      h p hp).2.1
  · intro dir out excluded hmem
    have hc := python3Install_calls E version unpackedPythonPath finalPythonPath
      offlineFilePath h _ hmem
    cases hc
    rfl

/-- C7, at the sample world: the run of the modern strategy for 3.11.0 returns and has
written the path file of `python311`. -/
theorem C7_pth_file_content_witness :
    (python3Install sampleEnv py311 ".\\Python/3.11.0temp" ".\\Python/3.11.0"
        "C:\\pvm/python-3.11.0.zip" []).1 = Outcome.ok "C:\\pvm\\Python\\3.11.0"
      ∧ Call.WriteString
          (sampleEnv.filepathJoin [".\\Python/3.11.0",
            pythonVersionBasename py311.VersionInfo ++ "._pth"])
          (pythonVersionBasename py311.VersionInfo
            ++ ".zip\n.\n\n# Uncomment to run site.main() automatically\n#import site\n\nLib\\site-packages")
        ∈ (python3Install sampleEnv py311 ".\\Python/3.11.0temp" ".\\Python/3.11.0"
          "C:\\pvm/python-3.11.0.zip" []).2 :=
  ⟨by decide,
    (C7_pth_file_content sampleEnv py311 ".\\Python/3.11.0temp" ".\\Python/3.11.0"
      "C:\\pvm/python-3.11.0.zip" []).2.2.2.1 "C:\\pvm\\Python\\3.11.0" (by decide)⟩

/-- C8: in every world the deletion loop hands to `os.RemoveAll` exactly the listed
children whose name does not contain "site-packages", and the strategy goes on to
create the path file; a child whose name merely contains "site-packages" is never
deleted.  So it is in the sample world, where `Lib` lists "os.py", "site-packages" and
"site-packages-old": the loop hands only "os.py" to `os.RemoveAll`, and the whole
strategy returns without ever handing "site-packages-old" to it. -/
theorem C8_site_packages_old_survives :
    (∀ (E : Env) (libDir : String) (files : List String) (h : Trace),
        removeLibChildren E libDir files h
          = (Outcome.ok (),
              (files.filter (fun f => !Contains f "site-packages")).map
                (fun f => Call.RemoveAll (E.filepathJoin [libDir, f]))))
      ∧ Contains "site-packages-old" "site-packages" = true
      ∧ sampleEnv.ReadDir [] "Python\\3.11.0\\Lib"
        = (["os.py", "site-packages", "site-packages-old"], none)
      ∧ removeLibChildren sampleEnv "Python\\3.11.0\\Lib"
          ["os.py", "site-packages", "site-packages-old"] []
        = (Outcome.ok (), [Call.RemoveAll "Python\\3.11.0\\Lib\\os.py"])
      ∧ (python3Install sampleEnv py311 ".\\Python/3.11.0temp" ".\\Python/3.11.0"
          "C:\\pvm/python-3.11.0.zip" []).1 = Outcome.ok "C:\\pvm\\Python\\3.11.0"
      ∧ Call.RemoveAll "Python\\3.11.0\\Lib\\site-packages-old"
        ∉ (python3Install sampleEnv py311 ".\\Python/3.11.0temp" ".\\Python/3.11.0"
          "C:\\pvm/python-3.11.0.zip" []).2 := by
  refine ⟨removeLibChildren_eq, by decide, by decide, by decide, by decide, by decide⟩

/-! ## The pipeline: claims C4, C10 -/

/-- For every token that resolves to a descriptor `d`, the target path is
`path.Join(PythonRootContainer, d.VersionNumber)`; the install first asks `os.Stat` for
it and, when the answer is anything but "does not exist" (so whenever the path
exists), hands it to `os.RemoveAll` before anything else: a failed deletion ends the
run with that error and no further call, a successful one is followed by the download
and then by the strategy, so every call of the download and of the strategy comes after
the deletion has succeeded. -/
theorem InstallNewVersion_deletes_stale_target (E : Env) (client : Client)
    (v : String) (h : Trace) (d : PythonVersion)
    (hres : resolveVersion E (E.fetchAllAvailableVersions h client).PythonVersions v
      = Outcome.ok d)
    (hexists : IsNotExist (E.Stat (h ++ [Call.fetchAllAvailableVersions])
      (E.pathJoin [PythonRootContainer, d.VersionNumber])).2 = false) :
    (∀ e, E.RemoveAll
          (h ++ [Call.fetchAllAvailableVersions,
            Call.Stat (E.pathJoin [PythonRootContainer, d.VersionNumber])])
          (E.pathJoin [PythonRootContainer, d.VersionNumber]) = some e →
        InstallNewVersion E client v h
          = (Outcome.fatal e.msg,
              [Call.fetchAllAvailableVersions,
                Call.Stat (E.pathJoin [PythonRootContainer, d.VersionNumber]),
                Call.RemoveAll (E.pathJoin [PythonRootContainer, d.VersionNumber])]))
      ∧ (E.RemoveAll
          (h ++ [Call.fetchAllAvailableVersions,
            Call.Stat (E.pathJoin [PythonRootContainer, d.VersionNumber])])
          (E.pathJoin [PythonRootContainer, d.VersionNumber]) = none →
        ∃ rest, (InstallNewVersion E client v h).2
          = [Call.fetchAllAvailableVersions,
              Call.Stat (E.pathJoin [PythonRootContainer, d.VersionNumber]),
              Call.RemoveAll (E.pathJoin [PythonRootContainer, d.VersionNumber]),
              Call.Print ("Downloading \"" ++ d.InstallerFilename ++ "\"... "),
              Call.DownloadFile d.DownloadUrl
                (E.pathJoin [(E.fetchAllAvailableVersions h client).AppRoot,
                  d.InstallerFilename])]
            ++ rest)
      ∧ (E.RemoveAll
          (h ++ [Call.fetchAllAvailableVersions,
            Call.Stat (E.pathJoin [PythonRootContainer, d.VersionNumber])])
          (E.pathJoin [PythonRootContainer, d.VersionNumber]) = none →
        E.DownloadFile
          (h ++ [Call.fetchAllAvailableVersions,
            Call.Stat (E.pathJoin [PythonRootContainer, d.VersionNumber]),
            Call.RemoveAll (E.pathJoin [PythonRootContainer, d.VersionNumber]),
            Call.Print ("Downloading \"" ++ d.InstallerFilename ++ "\"... ")])
          d.DownloadUrl
          (E.pathJoin [(E.fetchAllAvailableVersions h client).AppRoot,
            d.InstallerFilename]) = none →
        ∃ post, (InstallNewVersion E client v h).2
          = [Call.fetchAllAvailableVersions,
              Call.Stat (E.pathJoin [PythonRootContainer, d.VersionNumber]),
              Call.RemoveAll (E.pathJoin [PythonRootContainer, d.VersionNumber]),
              Call.Print ("Downloading \"" ++ d.InstallerFilename ++ "\"... "),
              Call.DownloadFile d.DownloadUrl
                (E.pathJoin [(E.fetchAllAvailableVersions h client).AppRoot,
                  d.InstallerFilename]),
              Call.Print "Done!\n"]
            ++ (installStrategy E d (E.pathJoin [PythonRootContainer, d.VersionNumber])
                (E.pathJoin [(E.fetchAllAvailableVersions h client).AppRoot,
                  d.InstallerFilename])
                (h ++ [Call.fetchAllAvailableVersions,
                  Call.Stat (E.pathJoin [PythonRootContainer, d.VersionNumber]),
                  Call.RemoveAll (E.pathJoin [PythonRootContainer, d.VersionNumber]),
                  Call.Print ("Downloading \"" ++ d.InstallerFilename ++ "\"... "),
                  Call.DownloadFile d.DownloadUrl
                    (E.pathJoin [(E.fetchAllAvailableVersions h client).AppRoot,
                      d.InstallerFilename]),
                  Call.Print "Done!\n"])).2
            ++ post) := by
  refine ⟨?_, ?_, ?_⟩
  · intro e he
    simp only [InstallNewVersion, Print, osStat, osRemoveAll, DownloadFile,
      bind_call_apply, bind_lift_ok_apply _ _ _ _ hres, List.append_assoc, List.cons_append,
      List.nil_append, hexists, he, Bool.not_false, if_true, bind_fatal_apply]
  · intro he
    simp only [InstallNewVersion, Print, osStat, osRemoveAll, DownloadFile,
      bind_call_apply, bind_lift_ok_apply _ _ _ _ hres, List.append_assoc, List.cons_append,
      List.nil_append, hexists, he, Bool.not_false, if_true, bind_pure_apply]
    exact ⟨_, rfl⟩
  · intro he hdl
    simp only [InstallNewVersion, Print, osStat, osRemoveAll, DownloadFile,
      bind_call_apply, bind_lift_ok_apply _ _ _ _ hres, List.append_assoc, List.cons_append,
      List.nil_append, hexists, he, hdl, Bool.not_false, if_true, bind_pure_apply,
      bind_calls_eq]
    exact ⟨_, rfl⟩

/-- From the download to the promotion: in a run of `InstallNewVersion` for a
descriptor whose major version is not 2, once the artifact is downloaded the next calls
are the extraction into `<target>temp` and the promotion of `<target>temp\tools` to the
target, whatever the extraction answers; the temporary path is not cleared before.
This is the case where the target does not exist. -/
theorem InstallNewVersion_promotes_after_download (E : Env) (client : Client)
    (v : String) (h : Trace) (d : PythonVersion)
    (hres : resolveVersion E (E.fetchAllAvailableVersions h client).PythonVersions v
      = Outcome.ok d)
    (hmajor : d.VersionInfo.Major ≠ 2)
    (hst : IsNotExist (E.Stat (h ++ [Call.fetchAllAvailableVersions]) (E.pathJoin [PythonRootContainer, d.VersionNumber])).2 = true)
    (hdl : E.DownloadFile (h ++ [Call.fetchAllAvailableVersions, Call.Stat (E.pathJoin [PythonRootContainer, d.VersionNumber]), Call.Print ("Downloading \"" ++ d.InstallerFilename ++ "\"... ")]) d.DownloadUrl (E.pathJoin [(E.fetchAllAvailableVersions h client).AppRoot, d.InstallerFilename])
      = none) :
    ∃ rest, (InstallNewVersion E client v h).2
      = [Call.fetchAllAvailableVersions, Call.Stat (E.pathJoin [PythonRootContainer, d.VersionNumber]), Call.Print ("Downloading \"" ++ d.InstallerFilename ++ "\"... "), Call.DownloadFile d.DownloadUrl (E.pathJoin [(E.fetchAllAvailableVersions h client).AppRoot, d.InstallerFilename]),
          Call.Print "Done!\n", Call.Print "Sorting files and fixing bugs... ",
          Call.UnzipFile (E.pathJoin [(E.fetchAllAvailableVersions h client).AppRoot, d.InstallerFilename]) ((E.pathJoin [PythonRootContainer, d.VersionNumber]) ++ "temp"),
          Call.Rename (E.filepathJoin [(E.pathJoin [PythonRootContainer, d.VersionNumber]) ++ "temp", "tools"]) (E.pathJoin [PythonRootContainer, d.VersionNumber])]
        ++ rest := by
  simp only [InstallNewVersion, installStrategy, hmajor, if_false, python3Install, Print,
    osStat, osRemoveAll, DownloadFile, UnzipFile, osRename,
    bind_call_apply, bind_lift_ok_apply _ _ _ _ hres, List.append_assoc,
    List.cons_append, List.nil_append, hst, hdl, Bool.not_true, Bool.false_eq_true,
    bind_pure_apply, bind_calls_eq]
  exact ⟨_, rfl⟩

/-- From the deletion to the promotion: the same when the target exists and its
deletion succeeds; between the deletion of the target and the promotion nothing clears
the temporary path. -/
theorem InstallNewVersion_promotes_after_deletion (E : Env) (client : Client)
    (v : String) (h : Trace) (d : PythonVersion)
    (hres : resolveVersion E (E.fetchAllAvailableVersions h client).PythonVersions v
      = Outcome.ok d)
    (hmajor : d.VersionInfo.Major ≠ 2)
    (hst : IsNotExist (E.Stat (h ++ [Call.fetchAllAvailableVersions]) (E.pathJoin [PythonRootContainer, d.VersionNumber])).2 = false)
    (hrm : E.RemoveAll (h ++ [Call.fetchAllAvailableVersions, Call.Stat (E.pathJoin [PythonRootContainer, d.VersionNumber])]) (E.pathJoin [PythonRootContainer, d.VersionNumber]) = none)
    (hdl : E.DownloadFile (h ++ [Call.fetchAllAvailableVersions, Call.Stat (E.pathJoin [PythonRootContainer, d.VersionNumber]), Call.RemoveAll (E.pathJoin [PythonRootContainer, d.VersionNumber]), Call.Print ("Downloading \"" ++ d.InstallerFilename ++ "\"... ")])
      d.DownloadUrl (E.pathJoin [(E.fetchAllAvailableVersions h client).AppRoot, d.InstallerFilename]) = none) :
    ∃ rest, (InstallNewVersion E client v h).2
      = [Call.fetchAllAvailableVersions, Call.Stat (E.pathJoin [PythonRootContainer, d.VersionNumber]), Call.RemoveAll (E.pathJoin [PythonRootContainer, d.VersionNumber]), Call.Print ("Downloading \"" ++ d.InstallerFilename ++ "\"... "),
          Call.DownloadFile d.DownloadUrl (E.pathJoin [(E.fetchAllAvailableVersions h client).AppRoot, d.InstallerFilename]),
          Call.Print "Done!\n", Call.Print "Sorting files and fixing bugs... ",
          Call.UnzipFile (E.pathJoin [(E.fetchAllAvailableVersions h client).AppRoot, d.InstallerFilename]) ((E.pathJoin [PythonRootContainer, d.VersionNumber]) ++ "temp"),
          Call.Rename (E.filepathJoin [(E.pathJoin [PythonRootContainer, d.VersionNumber]) ++ "temp", "tools"]) (E.pathJoin [PythonRootContainer, d.VersionNumber])]
        ++ rest := by
  simp only [InstallNewVersion, installStrategy, hmajor, if_false, python3Install, Print,
    osStat, osRemoveAll, DownloadFile, UnzipFile, osRename,
    bind_call_apply, bind_lift_ok_apply _ _ _ _ hres, List.append_assoc,
    List.cons_append, List.nil_append, hst, hrm, hdl, Bool.not_false, if_true,
    bind_pure_apply, bind_calls_eq]
  exact ⟨_, rfl⟩

/-- C10: the target path is `path.Join(PythonRootContainer, VersionNumber)` and a
target that exists is deleted before the download, but the temporary path
`<target>temp` is never cleared before its `tools` directory is promoted to the
target, and the promotion follows the extraction whatever the extraction answers.  So
in the simulated file system: a first install of "3.11.0" extracts the archive and ends
fatally with `<target>temp\tools` left behind (the promotion and the removal of the
temporary path are denied, their results dropped); in the second install the target
does not exist, the extraction reports an error, the promotion moves the tree of the
first install to the target, and the install returns and prints the success message:
the final tree holds `python.exe`, `python3.dll` and `Lib\site-packages\README.txt`
of the first install. -/
theorem C10_stale_temporary_tree_is_promoted :
    (InstallNewVersion firstInstallWorld.env (clientWith sampleCatalog) "3.11.0" []).1
        = Outcome.fatal "The system cannot find the file specified."
      ∧ firstInstallWorld.filesAfter
          (InstallNewVersion firstInstallWorld.env (clientWith sampleCatalog) "3.11.0" []).2
        = filesAfterFirstInstall
      ∧ secondInstallWorld.files = filesAfterFirstInstall
      ∧ (∀ h src dest, secondInstallWorld.env.UnzipFile h src dest ≠ none)
      ∧ (InstallNewVersion secondInstallWorld.env (clientWith sampleCatalog) "3.11.0" []).1
        = Outcome.ok ()
      ∧ ((InstallNewVersion secondInstallWorld.env (clientWith sampleCatalog) "3.11.0"
            []).2).take 9
        = [Call.fetchAllAvailableVersions,
            Call.Stat ".\\Python/3.11.0",
            Call.Print "Downloading \"python-3.11.0.zip\"... ",
            Call.DownloadFile "https://example.org/python.3.11.0.nupkg"
              "C:\\pvm/python-3.11.0.zip",
            Call.Print "Done!\n",
            Call.Print "Sorting files and fixing bugs... ",
            Call.UnzipFile "C:\\pvm/python-3.11.0.zip" ".\\Python/3.11.0temp",
            Call.Rename "Python\\3.11.0temp\\tools" ".\\Python/3.11.0",
            Call.RemoveAll ".\\Python/3.11.0temp"]
      ∧ ((InstallNewVersion secondInstallWorld.env (clientWith sampleCatalog) "3.11.0"
            []).2).getLast?
        = some (Call.Print "Python 3.11.0 installed successfully!\n")
      ∧ secondInstallWorld.filesAfter
          (InstallNewVersion secondInstallWorld.env (clientWith sampleCatalog) "3.11.0" []).2
        = ["C:\\pvm\\Python\\3.11.0\\python.exe",
            "C:\\pvm\\Python\\3.11.0\\Lib\\site-packages\\README.txt",
            "C:\\pvm\\Python\\3.11.0\\python3.dll",
            "C:\\pvm\\Python\\3.11.0\\python311.zip",
            "C:\\pvm\\Python\\3.11.0\\python311._pth",
            "C:\\pvm\\Python\\3.11.0\\Tools\\get-pip.py"]
      ∧ moved "C:\\pvm\\Python\\3.11.0temp\\tools" "C:\\pvm\\Python\\3.11.0"
          "C:\\pvm\\Python\\3.11.0temp\\tools\\python.exe"
        = "C:\\pvm\\Python\\3.11.0\\python.exe"
      ∧ "C:\\pvm\\Python\\3.11.0temp\\tools\\python.exe" ∈ filesAfterFirstInstall
      ∧ (∀ (E : Env) (client : Client) (v : String) (h : Trace) (d : PythonVersion),
          resolveVersion E (E.fetchAllAvailableVersions h client).PythonVersions v
            = Outcome.ok d →
          d.VersionInfo.Major ≠ 2 →
          IsNotExist (E.Stat (h ++ [Call.fetchAllAvailableVersions]) (E.pathJoin [PythonRootContainer, d.VersionNumber])).2 = false →
          E.RemoveAll (h ++ [Call.fetchAllAvailableVersions, Call.Stat (E.pathJoin [PythonRootContainer, d.VersionNumber])]) (E.pathJoin [PythonRootContainer, d.VersionNumber]) = none →
          E.DownloadFile (h ++ [Call.fetchAllAvailableVersions, Call.Stat (E.pathJoin [PythonRootContainer, d.VersionNumber]), Call.RemoveAll (E.pathJoin [PythonRootContainer, d.VersionNumber]), Call.Print ("Downloading \"" ++ d.InstallerFilename ++ "\"... ")])
            d.DownloadUrl (E.pathJoin [(E.fetchAllAvailableVersions h client).AppRoot, d.InstallerFilename]) = none →
          ∃ rest, (InstallNewVersion E client v h).2
            = [Call.fetchAllAvailableVersions, Call.Stat (E.pathJoin [PythonRootContainer, d.VersionNumber]), Call.RemoveAll (E.pathJoin [PythonRootContainer, d.VersionNumber]), Call.Print ("Downloading \"" ++ d.InstallerFilename ++ "\"... "),
                Call.DownloadFile d.DownloadUrl (E.pathJoin [(E.fetchAllAvailableVersions h client).AppRoot, d.InstallerFilename]),
                Call.Print "Done!\n", Call.Print "Sorting files and fixing bugs... ",
                Call.UnzipFile (E.pathJoin [(E.fetchAllAvailableVersions h client).AppRoot, d.InstallerFilename]) ((E.pathJoin [PythonRootContainer, d.VersionNumber]) ++ "temp"),
                Call.Rename (E.filepathJoin [(E.pathJoin [PythonRootContainer, d.VersionNumber]) ++ "temp", "tools"]) (E.pathJoin [PythonRootContainer, d.VersionNumber])]
              ++ rest)
      ∧ (∀ (E : Env) (client : Client) (v : String) (h : Trace) (d : PythonVersion),
          resolveVersion E (E.fetchAllAvailableVersions h client).PythonVersions v
            = Outcome.ok d →
          d.VersionInfo.Major ≠ 2 →
          IsNotExist (E.Stat (h ++ [Call.fetchAllAvailableVersions]) (E.pathJoin [PythonRootContainer, d.VersionNumber])).2 = true →
          E.DownloadFile (h ++ [Call.fetchAllAvailableVersions, Call.Stat (E.pathJoin [PythonRootContainer, d.VersionNumber]), Call.Print ("Downloading \"" ++ d.InstallerFilename ++ "\"... ")]) d.DownloadUrl (E.pathJoin [(E.fetchAllAvailableVersions h client).AppRoot, d.InstallerFilename])
            = none →
          ∃ rest, (InstallNewVersion E client v h).2
            = [Call.fetchAllAvailableVersions, Call.Stat (E.pathJoin [PythonRootContainer, d.VersionNumber]), Call.Print ("Downloading \"" ++ d.InstallerFilename ++ "\"... "), Call.DownloadFile d.DownloadUrl (E.pathJoin [(E.fetchAllAvailableVersions h client).AppRoot, d.InstallerFilename]),
                Call.Print "Done!\n", Call.Print "Sorting files and fixing bugs... ",
                Call.UnzipFile (E.pathJoin [(E.fetchAllAvailableVersions h client).AppRoot, d.InstallerFilename]) ((E.pathJoin [PythonRootContainer, d.VersionNumber]) ++ "temp"),
                Call.Rename (E.filepathJoin [(E.pathJoin [PythonRootContainer, d.VersionNumber]) ++ "temp", "tools"]) (E.pathJoin [PythonRootContainer, d.VersionNumber])]
              ++ rest) := by
  refine ⟨by decide, by decide, rfl, ?_, by decide, by decide, by decide, by decide,
    by decide, by decide, InstallNewVersion_promotes_after_deletion,
    InstallNewVersion_promotes_after_download⟩
  intro h src dest
  simp [SimWorld.env, secondInstallWorld]

/-! ## Activation: claim C6 -/

/-- When `os.Stat` reports no error, `MakeSymlink` goes on to the symlink command,
whether the path is a directory or not. -/
theorem MakeSymlink_of_stat_ok (E : Env) (version srcPath : String) (h : Trace)
    (fileInfo : Option FileInfo) (hst : E.Stat h srcPath = (fileInfo, none)) :
    ∃ rest, (MakeSymlink E version srcPath h).2
      = Call.Stat srcPath :: Call.Print "Making symlink... "
        :: Call.RunCmd (" ".intercalate ["powershell.exe", "-noprofile",
            "Start-Process -WindowStyle hidden -Verb RunAs -Wait powershell.exe -Args \""
              ++ ("New-Item -Force -ItemType SymbolicLink -Path '" ++ SymlinkDest
                ++ "' -Target '" ++ srcPath ++ "'") ++ "\""])
        :: rest := by
  simp only [MakeSymlink, osStat, Print, RunCmd, bind_call_apply, hst, Option.isSome_none,
    Bool.false_eq_true, if_false, bind_pure_apply]
  exact ⟨_, rfl⟩

/-- When `os.Stat` reports an error, and with it a nil `FileInfo`, `MakeSymlink`
panics on the nil `FileInfo` instead of reporting that the version is not
installed. -/
theorem MakeSymlink_of_stat_error (E : Env) (version srcPath : String) (h : Trace)
    (e : Error) (hst : E.Stat h srcPath = (none, some e)) :
    MakeSymlink E version srcPath h = (Outcome.panic nilDereference, [Call.Stat srcPath]) := by
  simp only [MakeSymlink, osStat, bind_call_apply, hst, Option.isSome_some, if_true,
    bind_panic_apply]

/-- C6: whenever `os.Stat` reports no error, `MakeSymlink` issues the symlink command,
also when the path is not a directory; whenever `os.Stat` reports an error (and with
it a nil `FileInfo`), `MakeSymlink` ends in a nil-pointer panic right after `os.Stat`,
without the "is not installed" message.  So it is on a path that exists and is a
regular file, where `MakeSymlink` returns true, and on a path that does not exist. -/
theorem C6_activation_precondition_not_enforced :
    (∀ (E : Env) (version srcPath : String) (h : Trace),
        E.Stat h srcPath = (some ⟨false⟩, none) →
        ∃ rest, (MakeSymlink E version srcPath h).2
          = Call.Stat srcPath :: Call.Print "Making symlink... "
            :: Call.RunCmd (" ".intercalate ["powershell.exe", "-noprofile",
                "Start-Process -WindowStyle hidden -Verb RunAs -Wait powershell.exe -Args \""
                  ++ ("New-Item -Force -ItemType SymbolicLink -Path '" ++ SymlinkDest
                    ++ "' -Target '" ++ srcPath ++ "'") ++ "\""])
            :: rest)
      ∧ (∀ (E : Env) (version srcPath : String) (h : Trace) (e : Error),
        E.Stat h srcPath = (none, some e) →
        MakeSymlink E version srcPath h
          = (Outcome.panic nilDereference, [Call.Stat srcPath]))
      ∧ regularFileEnv.Stat [] "C:\\pvm\\python-3.11.0.zip" = (some ⟨false⟩, none)
      ∧ MakeSymlink regularFileEnv "3.11.0" "C:\\pvm\\python-3.11.0.zip" []
        = (Outcome.ok true,
            [Call.Stat "C:\\pvm\\python-3.11.0.zip",
              Call.Print "Making symlink... ",
              Call.RunCmd ("powershell.exe -noprofile Start-Process -WindowStyle hidden "
                ++ "-Verb RunAs -Wait powershell.exe -Args \"New-Item -Force -ItemType "
                ++ "SymbolicLink -Path '%localappdata%\\Python' "
                ++ "-Target 'C:\\pvm\\python-3.11.0.zip'\""),
              Call.Print "Done!\n"])
      ∧ nothingExistsEnv.Stat [] "C:\\pvm\\Python\\3.11.0" = (none, some errNotExist)
      ∧ MakeSymlink nothingExistsEnv "3.11.0" "C:\\pvm\\Python\\3.11.0" []
        = (Outcome.panic nilDereference, [Call.Stat "C:\\pvm\\Python\\3.11.0"]) := by
  refine ⟨?_, ?_, by decide, by decide, by decide, by decide⟩
  · intro E version srcPath h hst
    exact MakeSymlink_of_stat_ok E version srcPath h _ hst
  · intro E version srcPath h e hst
    exact MakeSymlink_of_stat_error E version srcPath h e hst

/-! ## Failure propagation: claim C9 -/

/-- C9: in every world `python3Install` issues the extraction, the promotion of
`tools`, the removal of the temporary path, the compression and the listing of `Lib`
one after the other, whatever each of them answers.  Whenever compressing `Lib` reports
an error and the listing of `Lib` succeeds, `python3Install` goes on: the listing and the deletion of the loose children of `Lib`
follow the failed compression, and then the creation of the path file.  So it is in the
world `zipFailsEnv`, where the install of "3.11.0" deletes the loose file "os.py" after
the failed compression, returns and prints that the version was installed successfully;
and in the world `scriptDownloadFailsEnv`, where the download of the bootstrap script
reports an error, the bootstrap command is still run and the install likewise ends with
the success message. -/
theorem C9_dropped_errors_do_not_abort :
    (∀ (E : Env) (version : PythonVersion)
        (unpackedPythonPath finalPythonPath offlineFilePath : String) (h : Trace),
        ∃ rest,
          (python3Install E version unpackedPythonPath finalPythonPath offlineFilePath h).2
            = [Call.Print "Sorting files and fixing bugs... ",
                Call.UnzipFile offlineFilePath unpackedPythonPath,
                Call.Rename (E.filepathJoin [unpackedPythonPath, "tools"]) finalPythonPath,
                Call.RemoveAll unpackedPythonPath,
                Call.ZipDirWithExclusions (E.filepathJoin [finalPythonPath, "Lib"] ++ "\\")
                  (E.filepathJoin [finalPythonPath,
                    pythonVersionBasename version.VersionInfo ++ ".zip"]) ["site-packages"],
                Call.ReadDir (E.filepathJoin [finalPythonPath, "Lib"])]
              ++ rest)
      ∧ (∀ (E : Env) (version : PythonVersion)
        (unpackedPythonPath finalPythonPath offlineFilePath : String) (h : Trace)
        (files : List String) (e : Error),
        E.ZipDirWithExclusions
            (h ++ [Call.Print "Sorting files and fixing bugs... ",
              Call.UnzipFile offlineFilePath unpackedPythonPath,
              Call.Rename (E.filepathJoin [unpackedPythonPath, "tools"]) finalPythonPath,
              Call.RemoveAll unpackedPythonPath])
            (E.filepathJoin [finalPythonPath, "Lib"] ++ "\\")
            (E.filepathJoin [finalPythonPath,
              pythonVersionBasename version.VersionInfo ++ ".zip"]) ["site-packages"]
          = some e →
        E.ReadDir
            (h ++ [Call.Print "Sorting files and fixing bugs... ",
              Call.UnzipFile offlineFilePath unpackedPythonPath,
              Call.Rename (E.filepathJoin [unpackedPythonPath, "tools"]) finalPythonPath,
              Call.RemoveAll unpackedPythonPath,
              Call.ZipDirWithExclusions (E.filepathJoin [finalPythonPath, "Lib"] ++ "\\")
                (E.filepathJoin [finalPythonPath,
                  pythonVersionBasename version.VersionInfo ++ ".zip"]) ["site-packages"]])
            (E.filepathJoin [finalPythonPath, "Lib"]) = (files, none) →
        ∃ rest,
          (python3Install E version unpackedPythonPath finalPythonPath offlineFilePath h).2
            = [Call.Print "Sorting files and fixing bugs... ",
                Call.UnzipFile offlineFilePath unpackedPythonPath,
                Call.Rename (E.filepathJoin [unpackedPythonPath, "tools"]) finalPythonPath,
                Call.RemoveAll unpackedPythonPath,
                Call.ZipDirWithExclusions (E.filepathJoin [finalPythonPath, "Lib"] ++ "\\")
                  (E.filepathJoin [finalPythonPath,
                    pythonVersionBasename version.VersionInfo ++ ".zip"]) ["site-packages"],
                Call.ReadDir (E.filepathJoin [finalPythonPath, "Lib"])]
              ++ (files.filter (fun f => !Contains f "site-packages")).map
                  (fun f => Call.RemoveAll
                    (E.filepathJoin [E.filepathJoin [finalPythonPath, "Lib"], f]))
              ++ Call.Create (E.filepathJoin [finalPythonPath,
                  pythonVersionBasename version.VersionInfo ++ "._pth"]) :: rest)
      ∧ (∀ h dir out excluded, zipFailsEnv.ZipDirWithExclusions h dir out excluded ≠ none)
      ∧ (InstallNewVersion zipFailsEnv (clientWith sampleCatalog) "3.11.0" []).1
        = Outcome.ok ()
      ∧ (((InstallNewVersion zipFailsEnv (clientWith sampleCatalog) "3.11.0" []).2).drop 10).take 3
        = [Call.ZipDirWithExclusions "Python\\3.11.0\\Lib\\"
              "Python\\3.11.0\\python311.zip" ["site-packages"],
            Call.ReadDir "Python\\3.11.0\\Lib",
            Call.RemoveAll "Python\\3.11.0\\Lib\\os.py"]
      ∧ ((InstallNewVersion zipFailsEnv (clientWith sampleCatalog) "3.11.0" []).2).getLast?
        = some (Call.Print "Python 3.11.0 installed successfully!\n")
      ∧ (∀ h dest, scriptDownloadFailsEnv.DownloadFile h
          "https://bootstrap.pypa.io/get-pip.py" dest ≠ none)
      ∧ (InstallNewVersion scriptDownloadFailsEnv (clientWith sampleCatalog) "3.11.0" []).1
        = Outcome.ok ()
      ∧ (((InstallNewVersion scriptDownloadFailsEnv (clientWith sampleCatalog) "3.11.0"
            []).2).drop 22).take 5
        = [Call.DownloadFile "https://bootstrap.pypa.io/get-pip.py"
              "Python\\3.11.0\\Tools\\get-pip.py",
            Call.Print "Installing \"pip\" package... \n",
            Call.Print "",
            Call.Print "Python.exe path: Python\\3.11.0\\python.exe\n",
            Call.RunCmd ("Python\\3.11.0\\python.exe Python\\3.11.0\\Tools\\get-pip.py"
              ++ " && Python\\3.11.0\\python.exe -m pip install --upgrade pip")]
      ∧ ((InstallNewVersion scriptDownloadFailsEnv (clientWith sampleCatalog) "3.11.0"
            []).2).getLast?
        = some (Call.Print "Python 3.11.0 installed successfully!\n") := by
  refine ⟨python3Install_first_calls, ?_, ?_, by decide, by decide, by decide, ?_,
    by decide, by decide, by decide⟩
  · intro E version unpackedPythonPath finalPythonPath offlineFilePath h files e _ hdir
    exact python3Install_deletion_step E version unpackedPythonPath finalPythonPath
      offlineFilePath h files hdir
  · intro h dir out excluded
    simp [zipFailsEnv]
  · intro h dest
    simp [scriptDownloadFailsEnv]

end windowsClient
